import Mathlib

/-!
# discordgo-lite: REST bucket dispatcher and Gateway session

A shallow embedding of `rest.go` and `gateway.go`.

* Go strings are `String`; `json.RawMessage` is `String`.
* Go `int` and `time.Duration` are `Int`, wrapped to 64 bits where the code
  does arithmetic (`wrap64`).
* A `container/list` queue is a `List`; `Front()` is the head and removing the
  front element is `List.tail`.
* Effects (sleeping, HTTP exchanges, channel sends, socket writes, handler
  calls) are appended to an explicit event log.
* What the outside world answers (HTTP responses, socket frames, clock
  readings, JSON decoding, whether a receiver takes a body from a result
  channel) is an explicit argument of each step.
* A send on a result channel that is never taken does not return: the drain
  task of the bucket is then stuck (`Bucket.blocked`) and makes no further step.
-/

namespace Discordgo

/-! ## Machine integers -/

/-- Two's-complement wrap of an integer to the signed 64-bit range. -/
def wrap64 (x : Int) : Int := (x + 2 ^ 63) % 2 ^ 64 - 2 ^ 63

/-- Saturation to the signed 64-bit range, as `time.Time.Sub` does. -/
def sat64 (x : Int) : Int :=
  if x < -(2 ^ 63) then -(2 ^ 63) else if 2 ^ 63 - 1 < x then 2 ^ 63 - 1 else x

/-- Constant `time.Millisecond`, in nanoseconds. -/
def Millisecond : Int := 1000000

/-- Constant `time.Second`, in nanoseconds. -/
def Second : Int := 1000 * Millisecond

/-- Constant `time.Minute`, in nanoseconds. -/
def Minute : Int := 60 * Second

/-! ## rest.go -/

/-- Constant `apiVersion`. -/
def apiVersion : Nat := 8

/-- Variable `apiBase`: `fmt.Sprintf("%s%d", "https://discord.com/api/v", apiVersion)`. -/
def apiBase : String := "https://discord.com/api/v" ++ toString apiVersion

/-- Type `request`. `callbackChannel` is the identity of the result channel
(`none` is the nil channel); `body` is `none` for a nil slice. -/
structure request where
  url : String
  bucket : String
  callbackChannel : Option Nat
  token : String
  method : String
  body : Option String
  contentType : String
deriving DecidableEq, Repr

/-- Function `NewRestRequest`. -/
def NewRestRequest : request :=
  { url := apiBase, bucket := "", callbackChannel := none, token := "",
    method := "GET", body := none, contentType := "" }

/-- Method `request.major`. -/
def request.major (r : request) (path : String) : request :=
  { r with url := r.url ++ ("/" ++ path), bucket := r.bucket ++ ("/" ++ path) }

/-- Method `request.minor`. -/
def request.minor (r : request) (path : String) : request :=
  { r with url := r.url ++ ("/" ++ path), bucket := r.bucket ++ "/:minor" }

/-- Method `request.Method`. -/
def request.Method (r : request) (method : String) : request := { r with method := method }

/-- Method `request.Token`. -/
def request.Token (r : request) (token : String) : request := { r with token := token }

/-- Method `request.Route`. -/
def request.Route (r : request) (path : String) : request := r.major path

/-- Method `request.Query`. -/
def request.Query (r : request) (query : String) : request :=
  { r with url := r.url ++ ("?" ++ query) }

/-- Method `request.Guild`. -/
def request.Guild (r : request) (id : String) : request := r.major id

/-- Method `request.Channel`. -/
def request.Channel (r : request) (id : String) : request := r.major id

/-- Method `request.Id`. -/
def request.Id (r : request) (id : String) : request := r.minor id

/-- Method `request.Callback`. -/
def request.Callback (r : request) (callback : Option Nat) : request :=
  { r with callbackChannel := callback }

/-- Method `request.Body`. -/
def request.Body (r : request) (contentType : String) (content : Option String) : request :=
  { r with contentType := contentType, body := content }

/-- One path-building call of the fluent interface. -/
inductive Call where
  | Route (path : String)
  | Guild (id : String)
  | Channel (id : String)
  | Id (id : String)
deriving DecidableEq, Repr

/-- Performs one builder call on a request. -/
def request.call (r : request) : Call → request
  | .Route p => r.Route p
  | .Guild i => r.Guild i
  | .Channel i => r.Channel i
  | .Id i => r.Id i

/-- The request obtained from `NewRestRequest()` by a chain of builder calls. -/
def build (calls : List Call) : request := calls.foldl request.call NewRestRequest

/-- Concatenation of a list of strings, in order. -/
def joinAll : List String → String
  | [] => ""
  | s :: ss => s ++ joinAll ss

/-- The string a call was given. -/
def Call.segment : Call → String
  | .Route p => p
  | .Guild i => i
  | .Channel i => i
  | .Id i => i

/-- Whether a call adds a minor segment. -/
def Call.isMinor : Call → Bool
  | .Id _ => true
  | _ => false

/-- Specified contribution of a call to the bucket key: "/" + segment for a
major segment, the fixed token "/:minor" for a minor one. -/
def Call.specKeyPart (c : Call) : String :=
  if c.isMinor then "/:minor" else "/" ++ c.segment

/-- Specified contribution of a call to the URL: "/" + segment. -/
def Call.specUrlPart (c : Call) : String := "/" ++ c.segment

/-- Two calls are the same builder method with the same argument, or both are `Id`. -/
def Call.sameUpToId : Call → Call → Prop
  | .Id _, .Id _ => True
  | a, b => a = b

/-- The outcome of `client.Do` followed by `ioutil.ReadAll` for a response
that arrived. The three header fields hold what `strconv.Atoi` /
`strconv.ParseFloat` made of the header (`none` when it returned an error);
`resetAfter` is the resulting `int64(resetNumber*math.Pow(10, 9))` in
nanoseconds. `readErr` is whether `ioutil.ReadAll` returned an error. -/
structure Response where
  StatusCode : Int
  limit : Option Int
  resetAfter : Option Int
  remaining : Option Int
  body : String
  readErr : Bool
deriving DecidableEq, Repr

/-- The outcome of one HTTP exchange that took place (`http.NewRequest`
accepted the method and URL): `client.Do` failed, or a response came;
`received` is whether a receiver takes the body sent to the result channel. -/
inductive Exchange where
  | doErr
  | resp (r : Response) (received : Bool)
deriving DecidableEq, Repr

/-- Observable effects of the drain loop. -/
inductive Event where
  | sleep (d : Int)
  | exchange (r : request)
  | deliver (ch : Option Nat) (body : String)
  | remove (r : request)
deriving DecidableEq, Repr

/-- Method `request.execute`: the events it produces, and what it returns:
`some (resp, err != nil)` with `resp = none` when `client.Do` failed, or
`none` when the call never returns. The send `r.callbackChannel <- body` is on
an unbuffered channel: it completes when a receiver takes the body and blocks
for ever on a nil channel or when no receiver ever reads. -/
def request.execute (r : request) (x : Exchange) :
    List Event × Option (Option Response × Bool) :=
  match x with
  | .doErr => ([.exchange r], some (none, true))
  | .resp p received =>
    match r.callbackChannel with
    | none => ([.exchange r], none)
    | some ch =>
      if received then ([.exchange r, .deliver (some ch) p.body], some (some p, p.readErr))
      else ([.exchange r], none)

/-- Type `Bucket`. `blocked` is bookkeeping of the model: the drain task is
stuck for ever in the send of `request.execute`. -/
structure Bucket where
  running : Bool
  initialized : Bool
  limit : Int
  remaining : Int
  reset : Int
  queue : List request
  blocked : Bool
deriving DecidableEq, Repr

/-- The bucket `getBucket` creates on first use. -/
def Bucket.new : Bucket :=
  { running := false, initialized := false, limit := 0, remaining := 0, reset := 0, queue := [],
    blocked := false }

/-- Method `Bucket.execute`: the updated bucket, the events, and `success`
(`none` when `request.execute` never returns). -/
def Bucket.execute (b : Bucket) (r : request) (x : Exchange) :
    Bucket × List Event × Option Bool :=
  match r.execute x with
  | (ev, none) => (b, ev, none)
  | (ev, some (_, true)) => (b, ev, some false)
  | (ev, some (none, false)) => (b, ev, some false)
  | (ev, some (some resp, false)) =>
    let b1 := match resp.limit with
      | some limitNumber => { b with limit := limitNumber }
      | none => b
    let b2 := match resp.resetAfter with
      | some ns => { b1 with reset := ns }
      | none => b1
    let b3 := match resp.remaining with
      | some remainingNumber => { b2 with initialized := true, remaining := remainingNumber }
      | none => b2
    if resp.StatusCode = 429 then (b3, ev, some false) else (b3, ev, some true)

/-- The part of one iteration of `Bucket.run` before the exchange: the quota
wait and the decrement of `remaining`. -/
def Bucket.await (b : Bucket) : Bucket × List Event :=
  let (b1, ev) :=
    if b.remaining = 0 ∧ b.initialized = true then
      ({ b with remaining := b.limit }, [Event.sleep b.reset])
    else (b, [])
  ({ b1 with remaining := wrap64 (b1.remaining - 1) }, ev)

/-- One iteration of the loop of `Bucket.run`. Nothing happens on an empty
queue, where the loop condition is false, and nothing happens any more once
the drain task is blocked; an iteration whose `execute` never returns leaves
the task blocked. -/
def Bucket.runIter (b : Bucket) (x : Exchange) : Bucket × List Event :=
  if b.blocked = true then (b, [])
  else
    match b.queue with
    | [] => (b, [])
    | r :: rest =>
      match (b.await.1.execute r x).2.2 with
      | some true =>
        ({ (b.await.1.execute r x).1 with queue := rest },
          b.await.2 ++ (b.await.1.execute r x).2.1 ++ [Event.remove r])
      | some false => ((b.await.1.execute r x).1, b.await.2 ++ (b.await.1.execute r x).2.1)
      | none =>
        ({ (b.await.1.execute r x).1 with blocked := true },
          b.await.2 ++ (b.await.1.execute r x).2.1)

/-- The loop of `Bucket.run`, driven by the outcomes of the successive
exchanges; it leaves the loop as soon as the queue is empty and makes no
further step once the task is blocked. -/
def Bucket.loop (b : Bucket) : List Exchange → Bucket × List Event
  | [] => (b, [])
  | x :: xs =>
    if b.blocked = true then (b, [])
    else
      match b.queue with
      | [] => (b, [])
      | _ :: _ =>
        let (b1, ev) := b.runIter x
        let (b2, evs) := Bucket.loop b1 xs
        (b2, ev ++ evs)

/-- Method `Bucket.run` on a finite run of exchange outcomes: `running` is
set, the loop runs, and `running` is cleared once the loop has ended on an
empty queue. -/
def Bucket.run (b : Bucket) (xs : List Exchange) : Bucket × List Event :=
  let (b1, ev) := Bucket.loop { b with running := true } xs
  (if b1.queue = [] ∧ b1.blocked = false then { b1 with running := false } else b1, ev)

/-- Method `Bucket.enqueue`, without the start of the drain task. -/
def Bucket.enqueue (b : Bucket) (r : request) : Bucket := { b with queue := b.queue ++ [r] }

/-- The requests removed from the queue, in order of removal. -/
def removed : List Event → List request
  | [] => []
  | .remove r :: es => r :: removed es
  | _ :: es => removed es

/-- The bodies sent to a result channel, in order. -/
def deliveries (ch : Option Nat) : List Event → List String
  | [] => []
  | .deliver c body :: es => if c = ch then body :: deliveries ch es else deliveries ch es
  | _ :: es => deliveries ch es

/-- Whether an exchange outcome reports no transport error and a status other
than 429. -/
def Exchange.advances : Exchange → Bool
  | .doErr => false
  | .resp p _ => !p.readErr && decide (p.StatusCode ≠ 429)

/-- Whether the body of the response, if there is one, is taken from the
result channel of the request: the channel is not nil and a receiver reads. -/
def request.taken (r : request) : Exchange → Bool
  | .doErr => true
  | .resp _ received => r.callbackChannel.isSome && received

/-- Specified course of the drain loop on a queue, as (removed, still queued):
the head leaves the queue on an outcome without transport error and with a
status other than 429 whose body was taken; it stays on a transport error or
a 429; and the loop stands still from an outcome whose body is never taken. -/
def specDrain : List request → List Exchange → List request × List request
  | q, [] => ([], q)
  | [], _ :: _ => ([], [])
  | r :: rest, x :: xs =>
    if r.taken x = false then ([], r :: rest)
    else if x.advances = true then (r :: (specDrain rest xs).1, (specDrain rest xs).2)
    else specDrain (r :: rest) xs

/-! ## structures.go -/

/-- Type `GatewayPayload`. `D` is the raw JSON; an absent `s` or `t` is the
zero value. -/
structure GatewayPayload where
  Op : Int
  D : String
  S : Int
  T : String
deriving DecidableEq, Repr

/-- Type `IdentityConnectionProperties`. -/
structure IdentityConnectionProperties where
  Os : String
  Browser : String
  Device : String
deriving DecidableEq, Repr

/-- Type `IdentityPayload`. -/
structure IdentityPayload where
  Token : String
  Properties : IdentityConnectionProperties
  Intents : Int
deriving DecidableEq, Repr

/-- Type `ResumePayload`. -/
structure ResumePayload where
  Token : String
  SessionID : String
  Sequence : Int
deriving DecidableEq, Repr

/-- The `encoding/json` calls the gateway makes. Each `unmarshal` field gives
the value left in the target (for `HelloPayload` its `HeartbeatInterval`, for
`ReadyEvent` its `SessionID`) and whether the returned error is non-nil. -/
structure Json where
  marshalIdentity : IdentityPayload → String
  marshalResume : ResumePayload → String
  marshalInt : Int → String
  unmarshalHello : String → Int × Bool
  unmarshalReady : String → String × Bool
  unmarshalBool : String → Bool × Bool

/-! ## gateway.go -/

/-- Constant `websocket.CloseNormalClosure`. -/
def CloseNormalClosure : Int := 1000

/-- Constant `websocket.CloseAbnormalClosure`. -/
def CloseAbnormalClosure : Int := 1006

/-- Observable effects of the gateway code, in program order. -/
inductive Ev where
  | writeJSON (payload : GatewayPayload)
  | writeClose (closeCode : Int)
  | connClose
  | handler (eventName : String) (eventData : String)
  | sleep (d : Int)
  | monitor (period : Int)
deriving DecidableEq, Repr

/-- Type `GatewayConnection`. `conn` is whether `c.conn` is non-nil; `closed`
is whether the channel `c.closed` has been closed; `heartbeatChannel` is the
identity of the current heartbeat channel. The last three fields are the
bookkeeping of the model: how many heartbeat channels were made, which of them
are closed, and the event log. -/
structure GatewayConnection where
  Url : String
  conn : Bool
  sessionID : String
  lastSequence : Int
  heartbeatInterval : Int
  lastHeartbeatAck : Option Int
  token : String
  intents : Int
  active : Bool
  closed : Bool
  heartbeatChannel : Nat
  lastConnection : Option Int
  reconnectionStartingWaitTime : Int
  chans : Nat
  closedChans : List Nat
  log : List Ev
deriving DecidableEq, Repr

/-- How a piece of gateway code ends: it returns, the process exits through
`logger.Fatal`, or a runtime panic is raised. The state at that point is kept. -/
inductive Run (α : Type) where
  | ok (a : α)
  | fatal (c : GatewayConnection)
  | panic (c : GatewayConnection)
deriving DecidableEq, Repr

/-- Whether the run ended in `logger.Fatal`. -/
def Run.isFatal {α : Type} : Run α → Bool
  | .fatal _ => true
  | _ => false

/-- Whether the run ended in a runtime panic. -/
def Run.isPanic {α : Type} : Run α → Bool
  | .panic _ => true
  | _ => false

/-- How the socket answers during one step: whether a write returns an error
and whether `conn.Close()` returns an error. -/
structure Sock where
  writeErr : Bool
  closeErr : Bool
deriving DecidableEq, Repr

/-- The struct literal of `ConnectToGateway`: the connection before the
reconnect task starts. Its heartbeat channel is channel 0. -/
def newConnection (url token : String) (intents : Int) : GatewayConnection :=
  { Url := url, conn := false, sessionID := "", lastSequence := 0, heartbeatInterval := 0,
    lastHeartbeatAck := none, token := token, intents := intents, active := true,
    closed := false, heartbeatChannel := 0, lastConnection := none,
    reconnectionStartingWaitTime := Second, chans := 1, closedChans := [], log := [] }

/-- Method `GatewayConnection.error` on an error that is nil or not:
`logger.Fatal` ends the process when it is not nil. -/
def GatewayConnection.error (c : GatewayConnection) (isErr : Bool) : Run GatewayConnection :=
  if isErr then .fatal c else .ok c

/-- Method `GatewayConnection.write`: the payload is handed to the socket; the
returned error is the socket's answer. -/
def GatewayConnection.write (c : GatewayConnection) (payload : GatewayPayload) (k : Sock) :
    GatewayConnection × Bool :=
  ({ c with log := c.log ++ [Ev.writeJSON payload] }, k.writeErr)

/-- Method `GatewayConnection.close`. Closing a channel that is already closed
panics, and so does a method call on a nil `c.conn`. The final wait for
`c.closed` or one second changes nothing. -/
def GatewayConnection.close (c : GatewayConnection) (closeCode : Int) (k : Sock) :
    Run GatewayConnection :=
  if c.heartbeatChannel ∈ c.closedChans then .panic c
  else
    let c1 := { c with closedChans := c.heartbeatChannel :: c.closedChans }
    if c1.conn = false then .panic c1
    else
      let c2 := { c1 with log := c1.log ++ [Ev.writeClose closeCode] }
      if k.writeErr then
        ({ c2 with log := c2.log ++ [Ev.connClose] }).error k.closeErr
      else .ok c2

/-- Method `GatewayConnection.Close`. -/
def GatewayConnection.Close (c : GatewayConnection) (k : Sock) : Run GatewayConnection :=
  ({ c with active := false }).close CloseNormalClosure k

/-- The payload `identify` writes. -/
def GatewayConnection.identifyPayload (J : Json) (c : GatewayConnection) : GatewayPayload :=
  { Op := 2,
    D := J.marshalIdentity
      { Token := c.token,
        Properties := { Os := "Go", Browser := "andrew-wilson/discord.go",
                        Device := "andrew-wilson/discord.go" },
        Intents := c.intents },
    S := 0, T := "" }

/-- Method `GatewayConnection.identify`. -/
def GatewayConnection.identify (J : Json) (c : GatewayConnection) (k : Sock) :
    GatewayConnection × Bool :=
  c.write (c.identifyPayload J) k

/-- The payload `resume` writes. -/
def GatewayConnection.resumePayload (J : Json) (c : GatewayConnection) : GatewayPayload :=
  { Op := 6,
    D := J.marshalResume
      { Token := c.token, SessionID := c.sessionID, Sequence := c.lastSequence },
    S := 0, T := "" }

/-- Method `GatewayConnection.resume`. -/
def GatewayConnection.resume (J : Json) (c : GatewayConnection) (k : Sock) :
    GatewayConnection × Bool :=
  c.write (c.resumePayload J) k

/-- The payload `heartbeat` writes. -/
def GatewayConnection.heartbeatPayload (J : Json) (c : GatewayConnection) : GatewayPayload :=
  { Op := 1, D := J.marshalInt c.lastSequence, S := 0, T := "" }

/-- Method `GatewayConnection.heartbeat`: on a write error the first
`c.error` call already ends the process. -/
def GatewayConnection.heartbeat (J : Json) (c : GatewayConnection) (k : Sock) :
    Run GatewayConnection :=
  match c.write (c.heartbeatPayload J) k with
  | (c1, true) => c1.error true
  | (c1, false) => .ok c1

/-- Method `GatewayConnection.invalidateSession`. -/
def GatewayConnection.invalidateSession (c : GatewayConnection) : GatewayConnection :=
  { c with sessionID := "", lastSequence := 0 }

/-- What the network answers during `connect`: whether `Dial` returns an
error, and the result of the first `c.read()` (`none` for a read error). -/
structure Dial where
  dialErr : Bool
  first : Option GatewayPayload
deriving DecidableEq, Repr

/-- Method `GatewayConnection.connect`: the connection afterwards and whether
the returned error is non-nil. `time.NewTicker` panics on a non-positive
period; starting the monitor task is logged with its period. -/
def GatewayConnection.connect (J : Json) (c : GatewayConnection) (d : Dial) (k : Sock) :
    Run (GatewayConnection × Bool) :=
  let c0 : GatewayConnection := { c with heartbeatChannel := c.chans, chans := c.chans + 1 }
  if d.dialErr then .ok (c0, true)
  else
    let c1 : GatewayConnection := { c0 with conn := true }
    match d.first with
    | none => .ok (c1, true)
    | some response =>
      if response.Op ≠ 10 then .ok (c1, true)
      else
        let helloResponse := J.unmarshalHello response.D
        let c2 : GatewayConnection :=
          { c1 with heartbeatInterval := helloResponse.1, lastHeartbeatAck := none }
        if helloResponse.2 then .ok (c2, true)
        else if wrap64 (c2.heartbeatInterval * Millisecond) ≤ 0 then .panic c2
        else
          let c3 : GatewayConnection := { c2 with
            log := c2.log ++ [Ev.monitor (wrap64 (c2.heartbeatInterval * Millisecond))] }
          if c3.lastSequence ≠ 0 then .ok (c3.resume J k) else .ok (c3.identify J k)

/-- One tick of the heartbeat monitor started by `connect` (the `ticker.C`
case of its `select`): the connection afterwards and whether the monitor
keeps running. -/
def GatewayConnection.tick (J : Json) (c : GatewayConnection) (now : Int) (k : Sock) :
    Run (GatewayConnection × Bool) :=
  let beat : Run (GatewayConnection × Bool) :=
    match c.heartbeat J k with
    | .ok c1 => .ok (c1, true)
    | .fatal c1 => .fatal c1
    | .panic c1 => .panic c1
  match c.lastHeartbeatAck with
  | some ack =>
    if sat64 (now - ack) > wrap64 (c.heartbeatInterval * Millisecond) then
      match c.close CloseAbnormalClosure k with
      | .ok c1 => .ok (c1, false)
      | .fatal c1 => .fatal c1
      | .panic c1 => .panic c1
    else beat
  | none => beat

/-- One frame read by `listen`, with the clock reading and the socket's
answers while it is handled. -/
structure Recv where
  payload : GatewayPayload
  now : Int
  sock : Sock
deriving DecidableEq, Repr

/-- The body of the loop of `GatewayConnection.listen` for one frame. -/
def GatewayConnection.listenStep (J : Json) (c : GatewayConnection) (f : Recv) :
    Run GatewayConnection :=
  if f.payload.Op = 0 then
    let ready : Run GatewayConnection :=
      if f.payload.T = "READY" then
        match (J.unmarshalReady f.payload.D).2 with
        | true => c.error true
        | false => .ok { c with sessionID := (J.unmarshalReady f.payload.D).1 }
      else .ok c
    match ready with
    | .ok c1 =>
      .ok { c1 with lastSequence := f.payload.S,
                    log := c1.log ++ [Ev.handler f.payload.T f.payload.D] }
    | .fatal c1 => .fatal c1
    | .panic c1 => .panic c1
  else if f.payload.Op = 1 then c.heartbeat J f.sock
  else if f.payload.Op = 7 then c.close CloseAbnormalClosure f.sock
  else if f.payload.Op = 9 then
    match c.error (J.unmarshalBool f.payload.D).2 with
    | .ok c1 =>
      match c1.close CloseAbnormalClosure f.sock with
      | .ok c2 => .ok (if (J.unmarshalBool f.payload.D).1 = false then c2.invalidateSession else c2)
      | .fatal c2 => .fatal c2
      | .panic c2 => .panic c2
    | .fatal c1 => .fatal c1
    | .panic c1 => .panic c1
  else if f.payload.Op = 11 then .ok { c with lastHeartbeatAck := some f.now }
  else .ok c

/-- Method `GatewayConnection.listen` on the frames read before `c.read()`
returns an error. -/
def GatewayConnection.listen (J : Json) (c : GatewayConnection) : List Recv → Run GatewayConnection
  | [] => .ok c
  | f :: fs =>
    match c.listenStep J f with
    | .ok c1 => GatewayConnection.listen J c1 fs
    | .fatal c1 => .fatal c1
    | .panic c1 => .panic c1

/-- What happens around one connection attempt: the two clock readings of the
loop body, the network's answers to `connect`, and the frames `listen` reads. -/
structure Attempt where
  nowCheck : Int
  nowStart : Int
  dial : Dial
  auth : Sock
  frames : List Recv
deriving DecidableEq, Repr

/-- The head of the reconnect loop body: sleep for the backoff if the last
attempt began less than a minute ago, reset the backoff otherwise. -/
def GatewayConnection.reconnectWait (c : GatewayConnection) (now : Int) : GatewayConnection :=
  match c.lastConnection with
  | some last =>
    if sat64 (now - last) < Minute then
      { c with log := c.log ++ [Ev.sleep c.reconnectionStartingWaitTime] }
    else { c with reconnectionStartingWaitTime := Second }
  | none => c

/-- The tail of the reconnect loop body: double the backoff, cap it at five
minutes. -/
def GatewayConnection.reconnectBackoff (c : GatewayConnection) : GatewayConnection :=
  let doubled := wrap64 (c.reconnectionStartingWaitTime * 2)
  { c with reconnectionStartingWaitTime := if doubled > 5 * Minute then 5 * Minute else doubled }

/-- One iteration of the reconnect loop of `ConnectToGateway`. -/
def GatewayConnection.reconnectIter (J : Json) (c : GatewayConnection) (a : Attempt) :
    Run GatewayConnection :=
  let c1 := { c.reconnectWait a.nowCheck with lastConnection := some a.nowStart }
  match c1.connect J a.dial a.auth with
  | .ok (c2, true) =>
    match c2.error true with
    | .ok c3 => .ok c3.reconnectBackoff
    | .fatal c3 => .fatal c3
    | .panic c3 => .panic c3
  | .ok (c2, false) =>
    match c2.listen J a.frames with
    | .ok c3 => .ok c3.reconnectBackoff
    | .fatal c3 => .fatal c3
    | .panic c3 => .panic c3
  | .fatal c2 => .fatal c2
  | .panic c2 => .panic c2

/-- The deferred calls of the reconnect task, run when its loop ends:
`close(c.heartbeatChannel)`, whose argument was evaluated when the `defer`
statement ran and so is the channel made by `ConnectToGateway` (channel 0),
then `close(c.closed)`. -/
def GatewayConnection.loopExit (c : GatewayConnection) : Run GatewayConnection :=
  if 0 ∈ c.closedChans then .panic { c with closed := true }
  else .ok { c with closedChans := 0 :: c.closedChans, closed := true }

/-- The reconnect task of `ConnectToGateway` over the given attempts: the loop
runs while `c.active`; with no attempt left the loop is still running. -/
def GatewayConnection.reconnectLoop (J : Json) :
    GatewayConnection → List Attempt → Run GatewayConnection
  | c, [] => if c.active then .ok c else c.loopExit
  | c, a :: as =>
    if c.active then
      match c.reconnectIter J a with
      | .ok c1 => GatewayConnection.reconnectLoop J c1 as
      | .fatal c1 => .fatal c1
      | .panic c1 => .panic c1
    else c.loopExit

/-- A request for the gateway endpoint, as `ConnectToGateway` builds it, with
result channel 0. -/
def gatewayRequest : request :=
  ((((NewRestRequest.Method "GET").Token "t").Route "gateway").Route "bot").Callback (some 0)

/-- A request for the gateway endpoint built without `Callback`: its result
channel is nil. -/
def silentRequest : request :=
  (((NewRestRequest.Method "GET").Token "t").Route "gateway").Route "bot"

/-- A throttled response. -/
def throttledResponse : Response :=
  { StatusCode := 429, limit := none, resetAfter := none, remaining := none,
    body := "rate limited", readErr := false }

/-- A successful response without quota headers. -/
def plainResponse : Response :=
  { StatusCode := 200, limit := none, resetAfter := none, remaining := none,
    body := "ok", readErr := false }

/-- A request for `/channels/123/messages` with the given result channel. -/
def messagesRequest (ch : Nat) : request :=
  (((NewRestRequest.Route "channels").Channel "123").Route "messages").Callback (some ch)

/-- A bucket holding three queued requests for `/channels/123/messages`. -/
def messagesBucket : Bucket :=
  ((Bucket.new.enqueue (messagesRequest 1)).enqueue (messagesRequest 2)).enqueue
    (messagesRequest 3)

/-- A response reporting `remaining=0`, `reset-after=2s`, limit 5. -/
def exhaustedResponse : Response :=
  { StatusCode := 200, limit := some 5, resetAfter := some (2 * Second), remaining := some 0,
    body := "first", readErr := false }

/-- A stand-in for `encoding/json` on a handful of payloads. -/
def sampleJson : Json :=
  { marshalIdentity := fun p => "identify " ++ p.Token ++ " " ++ toString p.Intents,
    marshalResume := fun p =>
      "resume " ++ p.Token ++ " " ++ p.SessionID ++ " " ++ toString p.Sequence,
    marshalInt := fun n => toString n,
    unmarshalHello := fun s => if s = "heartbeat_interval:5000" then (5000, false) else (0, true),
    unmarshalReady := fun s => if s = "session_id:abc" then ("abc", false) else ("", true),
    unmarshalBool := fun s =>
      if s = "true" then (true, false) else if s = "false" then (false, false) else (false, true) }

/-- A socket on which every operation succeeds. -/
def okSock : Sock := { writeErr := false, closeErr := false }

/-- A Hello frame with a heartbeat interval of 5000 ms. -/
def helloFrame : GatewayPayload := { Op := 10, D := "heartbeat_interval:5000", S := 0, T := "" }

/-- A network that accepts the dial and sends Hello first. -/
def helloDial : Dial := { dialErr := false, first := some helloFrame }

/-- A session as `ConnectToGateway` creates it. -/
def freshSession : GatewayConnection := newConnection "wss://gateway.discord.gg" "token" 513

/-- The state a run ended in. -/
def Run.conn : Run (GatewayConnection × Bool) → GatewayConnection
  | .ok (c, _) => c
  | .fatal c => c
  | .panic c => c

/-- The state a run of the connection ended in. -/
def Run.state : Run GatewayConnection → GatewayConnection
  | .ok c => c
  | .fatal c => c
  | .panic c => c

/-- The fresh session after a first successful `connect`. -/
def connectedSession : GatewayConnection := (freshSession.connect sampleJson helloDial okSock).conn

/-- A connected session that has recorded sequence number 5 in session "abc". -/
def sessionAtFive : GatewayConnection :=
  { connectedSession with sessionID := "abc", lastSequence := 5 }

/-- A Dispatch frame with the given sequence number. -/
def dispatchFrame (s : Int) : Recv :=
  { payload := { Op := 0, D := "data", S := s, T := "MESSAGE_CREATE" }, now := 0, sock := okSock }

/-- The payloads handed to `WriteJSON`, in order. -/
def written : List Ev → List GatewayPayload
  | [] => []
  | .writeJSON p :: es => p :: written es
  | _ :: es => written es

/-- No attempt of the list finds that a minute or more has passed since the
attempt before it began (`last` is when the attempt before the first began). -/
def noReset : Option Int → List Attempt → Prop
  | _, [] => True
  | last, a :: as =>
    (∀ l, last = some l → sat64 (a.nowCheck - l) < Minute) ∧ noReset (some a.nowStart) as

/-- An attempt in which the server sends Hello and the connection then drops,
checked at `t` and begun at `t`. -/
def droppedAttempt (t : Int) : Attempt :=
  { nowCheck := t, nowStart := t, dial := helloDial, auth := okSock, frames := [] }

/-- A connected session whose last acknowledgment was recorded at time 0. -/
def ackedSession : GatewayConnection := { connectedSession with lastHeartbeatAck := some 0 }

/-- An attempt whose dial fails, checked at `t` and begun at `t`. -/
def failedDialAttempt (t : Int) : Attempt :=
  { nowCheck := t, nowStart := t, dial := { dialErr := true, first := none }, auth := okSock,
    frames := [] }

/-- An attempt whose dial succeeds and whose first read fails. -/
def failedReadAttempt (t : Int) : Attempt :=
  { nowCheck := t, nowStart := t, dial := { dialErr := false, first := none }, auth := okSock,
    frames := [] }

/-- An attempt whose first frame is a Dispatch frame instead of Hello. -/
def wrongFirstAttempt : Attempt :=
  { nowCheck := 0, nowStart := 0,
    dial := { dialErr := false, first := some (dispatchFrame 1).payload },
    auth := okSock, frames := [] }

/-- An attempt whose first frame is a Hello frame with a malformed payload. -/
def malformedHelloAttempt : Attempt :=
  { nowCheck := 0, nowStart := 0,
    dial := { dialErr := false, first := some { Op := 10, D := "garbage", S := 0, T := "" } },
    auth := okSock, frames := [] }

/-- The handler invocations `(eventName, eventData)`, in order. -/
def handled : List Ev → List (String × String)
  | [] => []
  | .handler t d :: es => (t, d) :: handled es
  | _ :: es => handled es

/-- A READY dispatch carrying `session_id = "abc"`, with sequence number 1. -/
def readyFrame : Recv :=
  { payload := { Op := 0, D := "session_id:abc", S := 1, T := "READY" }, now := 0,
    sock := okSock }

/-- A Dispatch frame named READY whose payload does not decode. -/
def malformedReadyFrame (s : Int) : Recv :=
  { payload := { Op := 0, D := "garbage", S := s, T := "READY" }, now := 0, sock := okSock }

/-- A HeartbeatRequest frame (opcode 1). -/
def heartbeatRequest : Recv :=
  { payload := { Op := 1, D := "", S := 0, T := "" }, now := 0, sock := okSock }

/-! ## Theorems -/

theorem apiBase_eq : apiBase = "https://discord.com/api/v8" := by decide

theorem foldl_call_bucket (calls : List Call) (r : request) :
    (calls.foldl request.call r).bucket = r.bucket ++ joinAll (calls.map Call.specKeyPart) := by
  induction calls generalizing r with
  | nil => simp [joinAll]
  | cons c cs ih =>
    rw [List.foldl_cons, ih]
    cases c <;>
      simp [request.call, request.Route, request.Guild, request.Channel, request.Id,
        request.major, request.minor, joinAll, Call.specKeyPart, Call.isMinor, Call.segment,
        String.append_assoc]

theorem foldl_call_url (calls : List Call) (r : request) :
    (calls.foldl request.call r).url = r.url ++ joinAll (calls.map Call.specUrlPart) := by
  induction calls generalizing r with
  | nil => simp [joinAll]
  | cons c cs ih =>
    rw [List.foldl_cons, ih]
    cases c <;>
      simp [request.call, request.Route, request.Guild, request.Channel, request.Id,
        request.major, request.minor, joinAll, Call.specUrlPart, Call.segment,
        String.append_assoc]

theorem specKeyPart_sameUpToId {a b : Call} (h : Call.sameUpToId a b) : a.specKeyPart = b.specKeyPart := by
  cases a <;> cases b <;> simp_all [Call.sameUpToId, Call.specKeyPart, Call.isMinor]

theorem map_specKeyPart_sameUpToId {xs ys : List Call} (h : List.Forall₂ Call.sameUpToId xs ys) :
    xs.map Call.specKeyPart = ys.map Call.specKeyPart := by
  induction h with
  | nil => rfl
  | cons hab _ ih => simp [specKeyPart_sameUpToId hab, ih]

/-- C1: for every sequence of Route/Guild/Channel/Id calls on a request from
NewRestRequest, the bucket key is the in-order concatenation of "/" + segment
for each major call and "/:minor" for each Id call, the URL is the API base
followed by "/" + segment for every call, and two call sequences that differ
only in the values given to Id yield the same bucket key. -/
theorem C1_bucket_key_and_url (calls : List Call) :
    (build calls).bucket = joinAll (calls.map Call.specKeyPart) ∧
    (build calls).url = apiBase ++ joinAll (calls.map Call.specUrlPart) ∧
    ∀ calls2, List.Forall₂ Call.sameUpToId calls calls2 →
      (build calls2).bucket = (build calls).bucket := by
  refine ⟨?_, ?_, ?_⟩
  · simp [build, foldl_call_bucket, NewRestRequest]
  · simp [build, foldl_call_url, NewRestRequest]
  · intro calls2 h
    simp [build, foldl_call_bucket, map_specKeyPart_sameUpToId h]

/-- C1 at Route("channels").Channel("123").Route("messages").Id(...): the
bucket key is "/channels/123/messages/:minor" whatever the message id is. -/
theorem C1_bucket_key_and_url_witness :
    (build [.Route "channels", .Channel "123", .Route "messages", .Id "456"]).bucket =
      "/channels/123/messages/:minor" ∧
    (build [.Route "channels", .Channel "123", .Route "messages", .Id "456"]).url =
      "https://discord.com/api/v8/channels/123/messages/456" ∧
    List.Forall₂ Call.sameUpToId
      [.Route "channels", .Channel "123", .Route "messages", .Id "456"]
      [.Route "channels", .Channel "123", .Route "messages", .Id "789"] ∧
    (build [.Route "channels", .Channel "123", .Route "messages", .Id "789"]).bucket =
      (build [.Route "channels", .Channel "123", .Route "messages", .Id "456"]).bucket :=
  ⟨(C1_bucket_key_and_url _).1.trans (by decide),
    (C1_bucket_key_and_url _).2.1.trans (by decide),
    by simp [Call.sameUpToId],
    (C1_bucket_key_and_url _).2.2 _ (by simp [Call.sameUpToId])⟩

theorem execute_result (b : Bucket) (r : request) (x : Exchange) :
    (b.execute r x).2.2 = if r.taken x = true then some x.advances else none := by
  cases x with
  | doErr => rfl
  | resp p received =>
    cases hc : r.callbackChannel <;> cases received <;> cases hr : p.readErr <;>
      by_cases h429 : p.StatusCode = 429 <;>
      simp [Bucket.execute, request.execute, request.taken, Exchange.advances, hc, hr, h429]

theorem execute_queue (b : Bucket) (r : request) (x : Exchange) :
    (b.execute r x).1.queue = b.queue ∧ (b.execute r x).1.blocked = b.blocked ∧
    (b.execute r x).1.running = b.running := by
  cases x with
  | doErr => exact ⟨rfl, rfl, rfl⟩
  | resp p received =>
    cases hc : r.callbackChannel <;> cases received <;> cases hr : p.readErr <;>
      cases hl : p.limit <;> cases hs : p.resetAfter <;> cases hm : p.remaining <;>
      by_cases h429 : p.StatusCode = 429 <;>
      simp [Bucket.execute, request.execute, hc, hr, hl, hs, hm, h429]

theorem await_queue (b : Bucket) :
    b.await.1.queue = b.queue ∧ b.await.1.blocked = b.blocked ∧
    b.await.1.running = b.running := by
  unfold Bucket.await
  split_ifs <;> exact ⟨rfl, rfl, rfl⟩

theorem removed_append (xs ys : List Event) : removed (xs ++ ys) = removed xs ++ removed ys := by
  induction xs with
  | nil => rfl
  | cons e es ih => cases e <;> simp [removed, ih]

theorem removed_await (b : Bucket) : removed b.await.2 = [] := by
  unfold Bucket.await
  split_ifs <;> rfl

theorem removed_execute (b : Bucket) (r : request) (x : Exchange) :
    removed (b.execute r x).2.1 = [] := by
  cases x with
  | doErr => rfl
  | resp p received =>
    cases hc : r.callbackChannel <;> cases received <;> cases hr : p.readErr <;>
      cases hl : p.limit <;> cases hs : p.resetAfter <;> cases hm : p.remaining <;>
      by_cases h429 : p.StatusCode = 429 <;>
      simp [Bucket.execute, request.execute, removed, hc, hr, hl, hs, hm, h429]

theorem runIter_cons (b : Bucket) (r : request) (rest : List request) (x : Exchange)
    (hb : b.blocked = false) (hq : b.queue = r :: rest) :
    b.runIter x =
      match (b.await.1.execute r x).2.2 with
      | some true =>
        ({ (b.await.1.execute r x).1 with queue := rest },
          b.await.2 ++ (b.await.1.execute r x).2.1 ++ [Event.remove r])
      | some false => ((b.await.1.execute r x).1, b.await.2 ++ (b.await.1.execute r x).2.1)
      | none =>
        ({ (b.await.1.execute r x).1 with blocked := true },
          b.await.2 ++ (b.await.1.execute r x).2.1) := by
  simp only [Bucket.runIter, hb, hq, Bool.false_eq_true, if_false]

theorem runIter_step (b : Bucket) (x : Exchange) (r : request) (rest : List request)
    (hb : b.blocked = false) (hq : b.queue = r :: rest) :
    (b.runIter x).1.queue =
      (if x.advances = true ∧ r.taken x = true then rest else r :: rest) ∧
    removed (b.runIter x).2 =
      (if x.advances = true ∧ r.taken x = true then [r] else []) ∧
    (b.runIter x).1.blocked = !(r.taken x) ∧
    (b.runIter x).1.running = b.running := by
  have h := execute_result b.await.1 r x
  obtain ⟨e1, e2, e3⟩ := execute_queue b.await.1 r x
  obtain ⟨a1, a2, a3⟩ := await_queue b
  rw [runIter_cons b r rest x hb hq]
  cases ht : r.taken x <;> cases ha : x.advances <;> simp only [ht, ha] at h <;>
    simp [h, e1, e2, e3, a1, a2, a3, hq, hb, removed_append, removed_await, removed_execute,
      removed]

theorem runIter_nil (b : Bucket) (x : Exchange) (hq : b.queue = []) : b.runIter x = (b, []) := by
  unfold Bucket.runIter
  split_ifs
  · rfl
  · simp [hq]

theorem loop_blocked (b : Bucket) (xs : List Exchange) (hb : b.blocked = true) :
    b.loop xs = (b, []) := by
  cases xs <;> simp [Bucket.loop, hb]

theorem loop_spec (xs : List Exchange) (b : Bucket) (hb : b.blocked = false) :
    removed (b.loop xs).2 = (specDrain b.queue xs).1 ∧
    (b.loop xs).1.queue = (specDrain b.queue xs).2 ∧
    (b.loop xs).1.running = b.running := by
  induction xs generalizing b with
  | nil => simp [Bucket.loop, removed, specDrain]
  | cons x xs ih =>
    cases hq : b.queue with
    | nil => simp [Bucket.loop, hb, hq, removed, specDrain]
    | cons r rest =>
      obtain ⟨s1, s2, s3, s4⟩ := runIter_step b x r rest hb hq
      simp only [Bucket.loop, hb, hq, Bool.false_eq_true, if_false, removed_append]
      cases ht : r.taken x
      · have hbl : (b.runIter x).1.blocked = true := by rw [s3, ht]; rfl
        rw [loop_blocked _ xs hbl]
        simp [specDrain, ht, s1, s2, s4, removed]
      · have hbl : (b.runIter x).1.blocked = false := by rw [s3, ht]; rfl
        obtain ⟨i1, i2, i3⟩ := ih (b.runIter x).1 hbl
        rw [i1, i2, i3, s1, s2, s4]
        cases ha : x.advances <;> simp [specDrain, ht, ha]

theorem specDrain_append (xs : List Exchange) (q : List request) :
    (specDrain q xs).1 ++ (specDrain q xs).2 = q := by
  induction xs generalizing q with
  | nil => cases q <;> simp [specDrain]
  | cons x xs ih =>
    cases q with
    | nil => simp [specDrain]
    | cons r rest =>
      simp only [specDrain]
      split_ifs
      · rfl
      · simp [ih rest]
      · exact ih (r :: rest)

theorem loop_fifo (xs : List Exchange) (b : Bucket) :
    removed (b.loop xs).2 ++ (b.loop xs).1.queue = b.queue := by
  cases hb : b.blocked
  · obtain ⟨h1, h2, -⟩ := loop_spec xs b hb
    rw [h1, h2, specDrain_append]
  · rw [loop_blocked b xs hb]
    rfl

theorem run_loop (b : Bucket) (xs : List Exchange) :
    (b.run xs).2 = (Bucket.loop { b with running := true } xs).2 ∧
    (b.run xs).1.queue = (Bucket.loop { b with running := true } xs).1.queue ∧
    (b.run xs).1.blocked = (Bucket.loop { b with running := true } xs).1.blocked := by
  simp only [Bucket.run]
  split_ifs <;> simp

/-- C2 (counterexample): a request built without Callback (nil result
channel), and a request with result channel 0 that nobody reads, each answered
with HTTP 200 and no transport error. The head is not removed: the drain task
is stuck in the send, and further outcomes change nothing. -/
theorem C2_unreceived_body_keeps_head :
    silentRequest.callbackChannel = none ∧
    (Exchange.resp plainResponse true).advances = true ∧
    ((Bucket.new.enqueue silentRequest).runIter (.resp plainResponse true)).1.queue =
      [silentRequest] ∧
    removed ((Bucket.new.enqueue silentRequest).runIter (.resp plainResponse true)).2 = [] ∧
    ((Bucket.new.enqueue silentRequest).run
      [.resp plainResponse true, .resp plainResponse true]).1.queue = [silentRequest] ∧
    ((Bucket.new.enqueue silentRequest).run
      [.resp plainResponse true, .resp plainResponse true]).1.running = true ∧
    ((Bucket.new.enqueue gatewayRequest).runIter (.resp plainResponse false)).1.queue =
      [gatewayRequest] ∧
    removed ((Bucket.new.enqueue gatewayRequest).runIter (.resp plainResponse false)).2 = [] := by
  decide

/-- C2 (amended): on a bucket whose drain task is not stuck, one iteration of
the drain loop changes the queue only by removing its head, and removes it
exactly when the exchange had no transport error, the status is not 429 and
the body was taken from the result channel of the request; on a transport
error or a 429 the queue is unchanged, and when the body is never taken the
iteration never ends, the task is stuck and the queue is unchanged. Hence over
every sequence of outcomes the requests removed so far, followed by those
still queued, are the original queue, and Bucket.run removes and keeps exactly
the requests of the specified course: they leave in admission order and none
is skipped or dropped. -/
theorem C2_drain_loop_fifo :
    (∀ (b : Bucket) (x : Exchange) (r : request) (rest : List request),
      b.blocked = false → b.queue = r :: rest →
      (b.runIter x).1.queue =
        (if x.advances = true ∧ r.taken x = true then rest else r :: rest) ∧
      removed (b.runIter x).2 =
        (if x.advances = true ∧ r.taken x = true then [r] else []) ∧
      (b.runIter x).1.blocked = !(r.taken x)) ∧
    (∀ (b : Bucket) (x : Exchange), b.queue = [] → b.runIter x = (b, [])) ∧
    (∀ (b : Bucket) (xs : List Exchange),
      removed (b.run xs).2 ++ (b.run xs).1.queue = b.queue) ∧
    (∀ (b : Bucket) (xs : List Exchange), b.blocked = false →
      removed (b.run xs).2 = (specDrain b.queue xs).1 ∧
      (b.run xs).1.queue = (specDrain b.queue xs).2 ∧
      (b.run xs).1.running = !decide ((b.run xs).1.queue = [] ∧ (b.run xs).1.blocked = false)) := by
  refine ⟨fun b x r rest hb hq => ?_, runIter_nil, fun b xs => ?_, fun b xs hb => ?_⟩
  · obtain ⟨s1, s2, s3, -⟩ := runIter_step b x r rest hb hq
    exact ⟨s1, s2, s3⟩
  · obtain ⟨r1, r2, -⟩ := run_loop b xs
    rw [r1, r2]
    exact loop_fifo xs { b with running := true }
  · obtain ⟨r1, r2, -⟩ := run_loop b xs
    obtain ⟨l1, l2, l3⟩ := loop_spec xs { b with running := true } hb
    refine ⟨by rw [r1, l1], by rw [r2, l2], ?_⟩
    simp only [Bucket.run]
    split_ifs with hc
    · simp [hc]
    · simp [hc, l3]

/-- C2 (amended) at three queued requests whose bodies are taken, with
outcomes 200, transport error, 429, 200: the first two requests leave in
order, the third is still queued. -/
theorem C2_drain_loop_fifo_witness :
    (messagesBucket.blocked = false ∧
      messagesBucket.queue = [messagesRequest 1, messagesRequest 2, messagesRequest 3]) ∧
    ((messagesBucket.runIter (.resp plainResponse true)).1.queue =
        [messagesRequest 2, messagesRequest 3] ∧
      removed (messagesBucket.runIter (.resp plainResponse true)).2 = [messagesRequest 1] ∧
      (messagesBucket.runIter (.resp plainResponse true)).1.blocked = false) ∧
    (removed (messagesBucket.run
        [.resp plainResponse true, .doErr, .resp throttledResponse true,
          .resp plainResponse true]).2 = [messagesRequest 1, messagesRequest 2] ∧
      (messagesBucket.run
        [.resp plainResponse true, .doErr, .resp throttledResponse true,
          .resp plainResponse true]).1.queue = [messagesRequest 3] ∧
      (messagesBucket.run
        [.resp plainResponse true, .doErr, .resp throttledResponse true,
          .resp plainResponse true]).1.running = true) :=
  ⟨by decide,
    C2_drain_loop_fifo.1 messagesBucket (.resp plainResponse true) (messagesRequest 1)
      [messagesRequest 2, messagesRequest 3] (by decide) (by decide),
    (C2_drain_loop_fifo.2.2.2 messagesBucket
      [.resp plainResponse true, .doErr, .resp throttledResponse true,
        .resp plainResponse true] (by decide)).imp
      (fun h => h.trans (by decide))
      (And.imp (fun h => h.trans (by decide)) (fun h => h.trans (by decide)))⟩

/-- C3 (evaluation): one queued request, a first exchange answered with HTTP
429 and a second answered with HTTP 200, both bodies taken by a receiver. The
request is removed once, after the second exchange, but its result channel
has received two bodies, the first of them the body of the 429 response. -/
theorem C3_throttled_body_is_delivered :
    deliveries (some 0)
        ((Bucket.new.enqueue gatewayRequest).run
          [.resp throttledResponse true, .resp plainResponse true]).2 =
      ["rate limited", "ok"] ∧
    removed ((Bucket.new.enqueue gatewayRequest).run
          [.resp throttledResponse true, .resp plainResponse true]).2 = [gatewayRequest] ∧
    ((Bucket.new.enqueue gatewayRequest).run
          [.resp throttledResponse true, .resp plainResponse true]).1.queue = [] := by
  decide

theorem await_exhausted (b : Bucket) (hi : b.initialized = true) (hr : b.remaining = 0) :
    b.await = ({ b with remaining := wrap64 (b.limit - 1) }, [Event.sleep b.reset]) := by
  simp [Bucket.await, hi, hr]

theorem execute_events_head (b : Bucket) (r : request) (x : Exchange) :
    ∃ evs, (b.execute r x).2.1 = Event.exchange r :: evs := by
  cases x with
  | doErr => exact ⟨[], rfl⟩
  | resp p received =>
    cases hc : r.callbackChannel with
    | none => exact ⟨[], by simp [Bucket.execute, request.execute, hc]⟩
    | some ch =>
      cases received with
      | false => exact ⟨[], by simp [Bucket.execute, request.execute, hc]⟩
      | true =>
        refine ⟨[Event.deliver (some ch) p.body], ?_⟩
        cases hr : p.readErr <;> cases hl : p.limit <;> cases hs : p.resetAfter <;>
          cases hm : p.remaining <;>
          by_cases h429 : p.StatusCode = 429 <;>
          simp [Bucket.execute, request.execute, hc, hr, hl, hs, hm, h429]

theorem execute_counters (b : Bucket) (r : request) (p : Response) (R : Int) (ch : Nat)
    (hch : r.callbackChannel = some ch)
    (hread : p.readErr = false) (hrem : p.remaining = some 0) (hreset : p.resetAfter = some R) :
    (b.execute r (.resp p true)).1.initialized = true ∧
    (b.execute r (.resp p true)).1.remaining = 0 ∧
    (b.execute r (.resp p true)).1.reset = R ∧
    (b.execute r (.resp p true)).1.limit = p.limit.getD b.limit := by
  cases hl : p.limit <;> by_cases h429 : p.StatusCode = 429 <;>
    simp [Bucket.execute, request.execute, hch, hread, hrem, hreset, hl, h429]

theorem await_limit (b : Bucket) : b.await.1.limit = b.limit := by
  unfold Bucket.await
  split_ifs <;> rfl

/-- C4: if an exchange returns (its body taken from the result channel)
without transport error and its headers report remaining = 0 and
reset-after = R, the bucket is left initialized with remaining = 0, reset = R
and the limit last observed; and in every later state of the bucket with these
counters, the next iteration of the drain loop sleeps R and sets remaining to
that limit (less the optimistic decrement) before it starts the exchange of
the request at the head of the queue. -/
theorem C4_exhausted_quota_sleeps (b : Bucket) (p : Response) (R : Int)
    (r0 : request) (rest0 : List request) (ch : Nat)
    (hb : b.blocked = false) (hq : b.queue = r0 :: rest0)
    (hch : r0.callbackChannel = some ch)
    (hread : p.readErr = false) (hrem : p.remaining = some 0)
    (hreset : p.resetAfter = some R) :
    (b.runIter (.resp p true)).1.initialized = true ∧
    (b.runIter (.resp p true)).1.remaining = 0 ∧
    (b.runIter (.resp p true)).1.reset = R ∧
    (b.runIter (.resp p true)).1.limit = p.limit.getD b.limit ∧
    (b.runIter (.resp p true)).1.blocked = false ∧
    ∀ (b2 : Bucket) (r : request) (rest : List request) (x : Exchange),
      b2.blocked = false →
      b2.initialized = (b.runIter (.resp p true)).1.initialized →
      b2.remaining = (b.runIter (.resp p true)).1.remaining →
      b2.reset = (b.runIter (.resp p true)).1.reset →
      b2.limit = (b.runIter (.resp p true)).1.limit →
      b2.queue = r :: rest →
      b2.await = ({ b2 with remaining := wrap64 (p.limit.getD b.limit - 1) }, [Event.sleep R]) ∧
      ∃ evs, (b2.runIter x).2 = Event.sleep R :: Event.exchange r :: evs := by
  obtain ⟨h1, h2, h3, h4⟩ := execute_counters b.await.1 r0 p R ch hch hread hrem hreset
  rw [await_limit] at h4
  have hblk : (b.runIter (.resp p true)).1.blocked = false := by
    rw [(runIter_step b (.resp p true) r0 rest0 hb hq).2.2.1]
    simp [request.taken, hch]
  have key : (b.runIter (.resp p true)).1.initialized = true ∧
      (b.runIter (.resp p true)).1.remaining = 0 ∧
      (b.runIter (.resp p true)).1.reset = R ∧
      (b.runIter (.resp p true)).1.limit = p.limit.getD b.limit := by
    rw [runIter_cons b r0 rest0 _ hb hq]
    split <;> exact ⟨h1, h2, h3, h4⟩
  obtain ⟨k1, k2, k3, k4⟩ := key
  refine ⟨k1, k2, k3, k4, hblk, ?_⟩
  intro b2 r rest x hb2 e1 e2 e3 e4 e5
  rw [k1] at e1
  rw [k2] at e2
  rw [k3] at e3
  rw [k4] at e4
  have ha : b2.await =
      ({ b2 with remaining := wrap64 (p.limit.getD b.limit - 1) }, [Event.sleep R]) := by
    rw [await_exhausted b2 e1 e2, e3, e4]
  refine ⟨ha, ?_⟩
  obtain ⟨evs, hev⟩ := execute_events_head b2.await.1 r x
  rw [runIter_cons b2 r rest x hb2 e5, ha] at *
  split
  · exact ⟨evs ++ [Event.remove r], by simp [hev]⟩
  · exact ⟨evs, by simp [hev]⟩
  · exact ⟨evs, by simp [hev]⟩

/-- C4 at three queued requests for /channels/123/messages whose first
response reports remaining=0, reset-after=2s: the second and the third
request are exchanged only after a sleep of 2s. -/
theorem C4_exhausted_quota_sleeps_witness :
    (messagesBucket.blocked = false ∧
      messagesBucket.queue = [messagesRequest 1, messagesRequest 2, messagesRequest 3] ∧
      (messagesRequest 1).callbackChannel = some 1 ∧
      exhaustedResponse.readErr = false ∧
      exhaustedResponse.remaining = some 0 ∧
      exhaustedResponse.resetAfter = some (2 * Second)) ∧
    ((messagesBucket.runIter (.resp exhaustedResponse true)).1.reset = 2 * Second ∧
      (messagesBucket.run
        [.resp exhaustedResponse true, .resp plainResponse true, .resp plainResponse true]).2 =
        [Event.exchange (messagesRequest 1), Event.deliver (some 1) "first",
          Event.remove (messagesRequest 1), Event.sleep (2 * Second),
          Event.exchange (messagesRequest 2), Event.deliver (some 2) "ok",
          Event.remove (messagesRequest 2),
          Event.exchange (messagesRequest 3), Event.deliver (some 3) "ok",
          Event.remove (messagesRequest 3)]) :=
  ⟨by decide,
    (C4_exhausted_quota_sleeps messagesBucket exhaustedResponse (2 * Second)
      (messagesRequest 1) [messagesRequest 2, messagesRequest 3] 1
      (by decide) (by decide) (by decide) (by decide) (by decide) (by decide)).2.2.1,
    by decide⟩

theorem close_ok {c c1 : GatewayConnection} {code : Int} {k : Sock}
    (h : c.close code k = .ok c1) :
    c1 = { c with closedChans := c.heartbeatChannel :: c.closedChans,
                  log := c.log ++ (Ev.writeClose code ::
                    if k.writeErr = true then [Ev.connClose] else []) } ∧
    c.heartbeatChannel ∉ c.closedChans ∧ c.conn = true ∧
    (k.writeErr = true → k.closeErr = false) := by
  by_cases h1 : c.heartbeatChannel ∈ c.closedChans
  · simp [GatewayConnection.close, h1] at h
  · cases hc : c.conn <;> cases hw : k.writeErr <;> cases he : k.closeErr <;>
      simp [GatewayConnection.close, GatewayConnection.error, h1, hc, hw, he] at h <;>
      subst h <;> simp [h1]

theorem heartbeat_ok {J : Json} {c c1 : GatewayConnection} {k : Sock}
    (h : c.heartbeat J k = .ok c1) :
    c1 = { c with log := c.log ++ [Ev.writeJSON (c.heartbeatPayload J)] } ∧
    k.writeErr = false := by
  cases hw : k.writeErr <;>
    simp [GatewayConnection.heartbeat, GatewayConnection.write, GatewayConnection.error, hw] at h
  subst h
  simp

theorem close_lastSequence (c c1 : GatewayConnection) (code : Int) (k : Sock)
    (h : c.close code k = .ok c1) : c1.lastSequence = c.lastSequence := by
  rw [(close_ok h).1]

theorem heartbeat_lastSequence (J : Json) (c c1 : GatewayConnection) (k : Sock)
    (h : c.heartbeat J k = .ok c1) : c1.lastSequence = c.lastSequence := by
  rw [(heartbeat_ok h).1]

/-- C5 (counterexample): a session that has recorded sequence 5 handles a
Dispatch frame with s = 3 and records 3; it handles a Dispatch frame without s
(zero value) and records 0, with no InvalidSession frame involved. -/
theorem C5_dispatch_lowers_sequence :
    sessionAtFive.lastSequence = 5 ∧
    (∃ c1, sessionAtFive.listenStep sampleJson (dispatchFrame 3) = .ok c1 ∧
      c1.lastSequence = 3) ∧
    (∃ c1, sessionAtFive.listenStep sampleJson (dispatchFrame 0) = .ok c1 ∧
      c1.lastSequence = 0) :=
  ⟨rfl, ⟨_, rfl, rfl⟩, ⟨_, rfl, rfl⟩⟩

/-- C5 (amended): handling a Dispatch frame that does not end the process on
a malformed READY payload returns with lastSequence equal to the frame's s
(0 when absent), so lastSequence does not decrease when s is at least the
recorded sequence; and a non-zero lastSequence becomes zero in listen only by
a Dispatch frame whose s is 0 or by a non-resumable InvalidSession frame. -/
theorem C5_dispatch_sets_sequence (J : Json) (c : GatewayConnection) (f : Recv) :
    (f.payload.Op = 0 →
      ¬ (f.payload.T = "READY" ∧ (J.unmarshalReady f.payload.D).2 = true) →
      ∃ c1, c.listenStep J f = .ok c1 ∧ c1.lastSequence = f.payload.S ∧
        (c.lastSequence ≤ f.payload.S → c.lastSequence ≤ c1.lastSequence)) ∧
    (∀ c1, c.listenStep J f = .ok c1 → c.lastSequence ≠ 0 → c1.lastSequence = 0 →
      (f.payload.Op = 0 ∧ f.payload.S = 0) ∨
      (f.payload.Op = 9 ∧ J.unmarshalBool f.payload.D = (false, false))) := by
  constructor
  · intro hop hready
    by_cases hT : f.payload.T = "READY"
    · have hu : (J.unmarshalReady f.payload.D).2 = false := by
        cases h : (J.unmarshalReady f.payload.D).2
        · rfl
        · exact absurd ⟨hT, h⟩ hready
      refine ⟨_, by simp only [GatewayConnection.listenStep, hop, hT, hu, if_true]; rfl, rfl,
        fun h => h⟩
    · refine ⟨_, by simp only [GatewayConnection.listenStep, hop, hT, if_true, if_false]; rfl,
        rfl, fun h => h⟩
  · intro c1 h hne hz
    unfold GatewayConnection.listenStep at h
    by_cases h0 : f.payload.Op = 0
    · left
      refine ⟨h0, ?_⟩
      simp only [h0, if_true] at h
      by_cases hT : f.payload.T = "READY"
      · cases hu : (J.unmarshalReady f.payload.D).2 <;>
          simp [hT, hu, GatewayConnection.error] at h
        subst h
        exact hz
      · simp [hT] at h
        subst h
        exact hz
    · simp only [h0, if_false] at h
      by_cases h1 : f.payload.Op = 1
      · simp only [h1, if_true] at h
        exact absurd ((heartbeat_lastSequence J c c1 _ h).symm.trans hz) hne
      · simp only [h1, if_false] at h
        by_cases h7 : f.payload.Op = 7
        · simp only [h7, if_true] at h
          exact absurd ((close_lastSequence c c1 _ _ h).symm.trans hz) hne
        · simp only [h7, if_false] at h
          by_cases h9 : f.payload.Op = 9
          · right
            refine ⟨h9, ?_⟩
            simp only [h9, if_true] at h
            cases he : (J.unmarshalBool f.payload.D).2
            · simp only [he, GatewayConnection.error] at h
              cases hc : c.close CloseAbnormalClosure f.sock with
              | ok c2 =>
                have hl := close_lastSequence c c2 _ _ hc
                cases hb : (J.unmarshalBool f.payload.D).1
                · exact Prod.ext hb he
                · simp [hc, hb] at h
                  subst h
                  exact absurd (hl.symm.trans hz) hne
              | fatal c2 => simp [hc] at h
              | panic c2 => simp [hc] at h
            · simp [he, GatewayConnection.error] at h
          · simp only [h9, if_false] at h
            by_cases h11 : f.payload.Op = 11
            · simp [h11] at h
              subst h
              exact absurd hz hne
            · simp [h11] at h
              subst h
              exact absurd hz hne

/-- C5 (amended) at a session with sequence 5 and a Dispatch frame with s = 7. -/
theorem C5_dispatch_sets_sequence_witness :
    (dispatchFrame 7).payload.Op = 0 ∧
    ¬ ((dispatchFrame 7).payload.T = "READY" ∧
        (sampleJson.unmarshalReady (dispatchFrame 7).payload.D).2 = true) ∧
    ∃ c1, sessionAtFive.listenStep sampleJson (dispatchFrame 7) = .ok c1 ∧
      c1.lastSequence = (dispatchFrame 7).payload.S ∧
      (sessionAtFive.lastSequence ≤ (dispatchFrame 7).payload.S →
        sessionAtFive.lastSequence ≤ c1.lastSequence) :=
  ⟨rfl, by decide,
    (C5_dispatch_sets_sequence sampleJson sessionAtFive (dispatchFrame 7)).1 rfl (by decide)⟩

theorem written_append (xs ys : List Ev) : written (xs ++ ys) = written xs ++ written ys := by
  induction xs with
  | nil => rfl
  | cons e es ih => cases e <;> simp [written, ih]

theorem connect_hello (J : Json) (c : GatewayConnection) (d : Dial) (k : Sock)
    (p : GatewayPayload) (hd : d.dialErr = false) (hf : d.first = some p) (hop : p.Op = 10)
    (herr : (J.unmarshalHello p.D).2 = false)
    (hpos : 0 < wrap64 ((J.unmarshalHello p.D).1 * Millisecond)) :
    c.connect J d k = .ok
      ({ c with
          heartbeatChannel := c.chans, chans := c.chans + 1, conn := true,
          heartbeatInterval := (J.unmarshalHello p.D).1, lastHeartbeatAck := none,
          log := c.log ++ [Ev.monitor (wrap64 ((J.unmarshalHello p.D).1 * Millisecond)),
            Ev.writeJSON (if c.lastSequence ≠ 0 then c.resumePayload J
              else c.identifyPayload J)] }, k.writeErr) := by
  have hpos2 : ¬ wrap64 ((J.unmarshalHello p.D).1 * Millisecond) ≤ 0 := not_le.mpr hpos
  by_cases hs : c.lastSequence = 0
  · simp [GatewayConnection.connect, hd, hf, hop, herr, hpos2, hs,
      GatewayConnection.identify, GatewayConnection.write, GatewayConnection.identifyPayload]
  · simp [GatewayConnection.connect, hd, hf, hop, herr, hpos2, hs,
      GatewayConnection.resume, GatewayConnection.write, GatewayConnection.resumePayload]

/-- C6: after a dial that succeeds and a first frame that is a well-formed
Hello with a positive heartbeat period, connect() returns having handed
exactly one frame to the socket: Resume (opcode 6 with token, stored session
id and lastSequence) if lastSequence != 0, Identify (opcode 2 with token, the
os/browser/device properties and intents) otherwise; its error is the error
of that write. -/
theorem C6_connect_auth_frame (J : Json) (c : GatewayConnection) (d : Dial) (k : Sock)
    (p : GatewayPayload) (hd : d.dialErr = false) (hf : d.first = some p) (hop : p.Op = 10)
    (herr : (J.unmarshalHello p.D).2 = false)
    (hpos : 0 < wrap64 ((J.unmarshalHello p.D).1 * Millisecond)) :
    ∃ c1, c.connect J d k = .ok (c1, k.writeErr) ∧
      written c1.log = written c.log ++
        [if c.lastSequence ≠ 0 then
          { Op := 6,
            D := J.marshalResume
              { Token := c.token, SessionID := c.sessionID, Sequence := c.lastSequence },
            S := 0, T := "" }
        else
          { Op := 2,
            D := J.marshalIdentity
              { Token := c.token,
                Properties := { Os := "Go", Browser := "andrew-wilson/discord.go",
                                Device := "andrew-wilson/discord.go" },
                Intents := c.intents },
            S := 0, T := "" }] := by
  refine ⟨_, connect_hello J c d k p hd hf hop herr hpos, ?_⟩
  by_cases hs : c.lastSequence = 0 <;>
    simp [written_append, written, hs, GatewayConnection.identifyPayload,
      GatewayConnection.resumePayload]

/-- C6 at a fresh session (lastSequence = 0) and at a session that has
recorded sequence 5: Identify is written to the first, Resume to the second. -/
theorem C6_connect_auth_frame_witness :
    (helloDial.dialErr = false ∧ helloDial.first = some helloFrame ∧ helloFrame.Op = 10 ∧
      (sampleJson.unmarshalHello helloFrame.D).2 = false ∧
      0 < wrap64 ((sampleJson.unmarshalHello helloFrame.D).1 * Millisecond)) ∧
    (∃ c1, freshSession.connect sampleJson helloDial okSock = .ok (c1, okSock.writeErr) ∧
      written c1.log = written freshSession.log ++
        [if freshSession.lastSequence ≠ 0 then
          { Op := 6,
            D := sampleJson.marshalResume
              { Token := freshSession.token, SessionID := freshSession.sessionID,
                Sequence := freshSession.lastSequence },
            S := 0, T := "" }
        else
          { Op := 2,
            D := sampleJson.marshalIdentity
              { Token := freshSession.token,
                Properties := { Os := "Go", Browser := "andrew-wilson/discord.go",
                                Device := "andrew-wilson/discord.go" },
                Intents := freshSession.intents },
            S := 0, T := "" }]) ∧
    written (sessionAtFive.connect sampleJson helloDial okSock).conn.log =
      written sessionAtFive.log ++ [{ Op := 6, D := "resume token abc 5", S := 0, T := "" }] :=
  ⟨by decide,
    C6_connect_auth_frame sampleJson freshSession helloDial okSock helloFrame
      (by decide) (by decide) (by decide) (by decide) (by decide),
    by decide⟩

theorem wrap64_of_range (x : Int) (h1 : -(2 ^ 63) ≤ x) (h2 : x < 2 ^ 63) : wrap64 x = x := by
  unfold wrap64
  norm_num at h1 h2 ⊢
  omega

theorem connect_frame {J : Json} {c c1 : GatewayConnection} {d : Dial} {k : Sock} {e : Bool}
    (h : c.connect J d k = .ok (c1, e)) :
    c1.reconnectionStartingWaitTime = c.reconnectionStartingWaitTime ∧
    c1.active = c.active ∧ c1.lastConnection = c.lastConnection := by
  unfold GatewayConnection.connect at h
  cases hd : d.dialErr
  · cases hf : d.first with
    | none =>
      simp [hd, hf] at h
      obtain ⟨h, -⟩ := h
      subst h
      simp
    | some p =>
      by_cases hop : p.Op = 10
      · cases he : (J.unmarshalHello p.D).2
        · by_cases hpos : wrap64 ((J.unmarshalHello p.D).1 * Millisecond) ≤ 0
          · simp [hd, hf, hop, he, hpos] at h
          · by_cases hs : c.lastSequence = 0
            · simp [hd, hf, hop, he, hpos, hs, GatewayConnection.identify,
                GatewayConnection.write] at h
              obtain ⟨h, -⟩ := h
              subst h
              simp
            · simp [hd, hf, hop, he, hpos, hs, GatewayConnection.resume,
                GatewayConnection.write] at h
              obtain ⟨h, -⟩ := h
              subst h
              simp
        · simp [hd, hf, hop, he] at h
          obtain ⟨h, -⟩ := h
          subst h
          simp
      · simp [hd, hf, hop] at h
        obtain ⟨h, -⟩ := h
        subst h
        simp
  · simp [hd] at h
    obtain ⟨h, -⟩ := h
    subst h
    simp

theorem listenStep_frame {J : Json} {c c1 : GatewayConnection} {f : Recv}
    (h : c.listenStep J f = .ok c1) :
    c1.reconnectionStartingWaitTime = c.reconnectionStartingWaitTime ∧
    c1.active = c.active ∧ c1.lastConnection = c.lastConnection := by
  unfold GatewayConnection.listenStep at h
  by_cases h0 : f.payload.Op = 0
  · simp only [h0, if_true] at h
    by_cases hT : f.payload.T = "READY"
    · cases hu : (J.unmarshalReady f.payload.D).2 <;>
        simp [hT, hu, GatewayConnection.error] at h
      subst h
      simp
    · simp [hT] at h
      subst h
      simp
  · simp only [h0, if_false] at h
    by_cases h1 : f.payload.Op = 1
    · simp only [h1, if_true] at h
      rw [(heartbeat_ok h).1]
      simp
    · simp only [h1, if_false] at h
      by_cases h7 : f.payload.Op = 7
      · simp only [h7, if_true] at h
        rw [(close_ok h).1]
        simp
      · simp only [h7, if_false] at h
        by_cases h9 : f.payload.Op = 9
        · simp only [h9, if_true] at h
          cases he : (J.unmarshalBool f.payload.D).2
          · simp only [he, GatewayConnection.error] at h
            cases hc : c.close CloseAbnormalClosure f.sock with
            | ok c2 =>
              have hl := (close_ok hc).1
              cases hb : (J.unmarshalBool f.payload.D).1 <;>
                simp [hc, hb] at h <;> subst h <;> rw [hl] <;>
                simp [GatewayConnection.invalidateSession]
            | fatal c2 => simp [hc] at h
            | panic c2 => simp [hc] at h
          · simp [he, GatewayConnection.error] at h
        · simp only [h9, if_false] at h
          by_cases h11 : f.payload.Op = 11
          · simp [h11] at h
            subst h
            simp
          · simp [h11] at h
            subst h
            simp

theorem listen_frame {J : Json} (fs : List Recv) {c c1 : GatewayConnection}
    (h : c.listen J fs = .ok c1) :
    c1.reconnectionStartingWaitTime = c.reconnectionStartingWaitTime ∧
    c1.active = c.active ∧ c1.lastConnection = c.lastConnection := by
  induction fs generalizing c with
  | nil =>
    simp [GatewayConnection.listen] at h
    subst h
    simp
  | cons f fs ih =>
    unfold GatewayConnection.listen at h
    cases hs : c.listenStep J f with
    | ok c2 =>
      simp only [hs] at h
      obtain ⟨a1, a2, a3⟩ := listenStep_frame hs
      obtain ⟨b1, b2, b3⟩ := ih h
      exact ⟨b1.trans a1, b2.trans a2, b3.trans a3⟩
    | fatal c2 => simp [hs] at h
    | panic c2 => simp [hs] at h

theorem reconnectBackoff_wait (c : GatewayConnection) :
    c.reconnectBackoff.reconnectionStartingWaitTime =
      if wrap64 (c.reconnectionStartingWaitTime * 2) > 5 * Minute then 5 * Minute
      else wrap64 (c.reconnectionStartingWaitTime * 2) := rfl

theorem reconnectBackoff_in_range (c : GatewayConnection)
    (h1 : Second ≤ c.reconnectionStartingWaitTime)
    (h2 : c.reconnectionStartingWaitTime ≤ 5 * Minute) :
    c.reconnectionStartingWaitTime * 2 < 2 ^ 63 ∧
    wrap64 (c.reconnectionStartingWaitTime * 2) = c.reconnectionStartingWaitTime * 2 ∧
    c.reconnectBackoff.reconnectionStartingWaitTime =
      min (2 * c.reconnectionStartingWaitTime) (5 * Minute) := by
  have hw : wrap64 (c.reconnectionStartingWaitTime * 2) = c.reconnectionStartingWaitTime * 2 := by
    apply wrap64_of_range <;> simp only [Second, Minute, Millisecond] at h1 h2 <;>
      norm_num at h1 h2 ⊢ <;> omega
  refine ⟨?_, hw, ?_⟩
  · simp only [Second, Minute, Millisecond] at h1 h2
    norm_num at h1 h2 ⊢
    omega
  · rw [reconnectBackoff_wait, hw, min_def]
    simp only [Minute, Second, Millisecond] at h1 h2 ⊢
    split_ifs <;> omega

theorem reconnectWait_wait (c : GatewayConnection) (now : Int) :
    (∀ last, c.lastConnection = some last → Minute ≤ sat64 (now - last) →
      (c.reconnectWait now).reconnectionStartingWaitTime = Second) ∧
    (∀ last, c.lastConnection = some last → sat64 (now - last) < Minute →
      (c.reconnectWait now).reconnectionStartingWaitTime = c.reconnectionStartingWaitTime ∧
      (c.reconnectWait now).log = c.log ++ [Ev.sleep c.reconnectionStartingWaitTime]) ∧
    (c.lastConnection = none → c.reconnectWait now = c) := by
  refine ⟨?_, ?_, ?_⟩
  · intro last hl hm
    simp [GatewayConnection.reconnectWait, hl, not_lt.mpr hm]
  · intro last hl hm
    simp [GatewayConnection.reconnectWait, hl, hm]
  · intro hl
    simp [GatewayConnection.reconnectWait, hl]

theorem reconnectWait_active (c : GatewayConnection) (now : Int) :
    (c.reconnectWait now).active = c.active := by
  unfold GatewayConnection.reconnectWait
  split
  · split_ifs <;> rfl
  · rfl

theorem reconnectWait_in_range (c : GatewayConnection) (now : Int)
    (h1 : Second ≤ c.reconnectionStartingWaitTime)
    (h2 : c.reconnectionStartingWaitTime ≤ 5 * Minute) :
    Second ≤ (c.reconnectWait now).reconnectionStartingWaitTime ∧
    (c.reconnectWait now).reconnectionStartingWaitTime ≤ 5 * Minute := by
  unfold GatewayConnection.reconnectWait
  split
  · split_ifs
    · exact ⟨h1, h2⟩
    · simp only [Minute, Second, Millisecond]
      norm_num
  · exact ⟨h1, h2⟩

theorem reconnectIter_ok {J : Json} {c c1 : GatewayConnection} {a : Attempt}
    (h : c.reconnectIter J a = .ok c1) :
    c1.reconnectionStartingWaitTime =
      (c.reconnectWait a.nowCheck).reconnectBackoff.reconnectionStartingWaitTime ∧
    c1.active = c.active ∧ c1.lastConnection = some a.nowStart := by
  unfold GatewayConnection.reconnectIter at h
  simp only at h
  cases hc : GatewayConnection.connect J
      { c.reconnectWait a.nowCheck with lastConnection := some a.nowStart } a.dial a.auth with
  | ok r =>
    obtain ⟨c2, e⟩ := r
    obtain ⟨f1, f2, f3⟩ := connect_frame hc
    cases e with
    | true => simp [hc, GatewayConnection.error] at h
    | false =>
      simp only [hc] at h
      cases hl : c2.listen J a.frames with
      | ok c3 =>
        obtain ⟨g1, g2, g3⟩ := listen_frame _ hl
        simp only [hl, Run.ok.injEq] at h
        subst h
        refine ⟨?_, ?_, ?_⟩
        · rw [reconnectBackoff_wait, reconnectBackoff_wait, g1, f1]
        · show c3.active = c.active
          rw [g2, f2]
          exact reconnectWait_active c a.nowCheck
        · show c3.lastConnection = some a.nowStart
          rw [g3, f3]
      | fatal c3 => simp [hl] at h
      | panic c3 => simp [hl] at h
  | fatal c2 => simp [hc] at h
  | panic c2 => simp [hc] at h

theorem Second_eq : Second = 1000000000 := by decide

theorem Minute_eq : Minute = 60000000000 := by decide

theorem double_cap (n : Nat) :
    min (2 * min (2 ^ n * Second) (5 * Minute)) (5 * Minute) =
      min (2 ^ (n + 1) * Second) (5 * Minute) := by
  rw [pow_succ, Second_eq, Minute_eq]
  generalize (2 : Int) ^ n = x
  simp only [min_def]
  split_ifs <;> omega

theorem cap_in_range (n : Nat) :
    Second ≤ min (2 ^ n * Second) (5 * Minute) ∧ min (2 ^ n * Second) (5 * Minute) ≤ 5 * Minute := by
  have h : (1 : Int) ≤ 2 ^ n := by exact_mod_cast Nat.one_le_two_pow
  rw [Second_eq, Minute_eq]
  generalize (2 : Int) ^ n = x at h
  simp only [min_def]
  split_ifs <;> omega

theorem loopExit_ok {c c1 : GatewayConnection} (h : c.loopExit = .ok c1) :
    c1 = { c with closedChans := 0 :: c.closedChans, closed := true } ∧ 0 ∉ c.closedChans := by
  unfold GatewayConnection.loopExit at h
  split_ifs at h with h0
  simp only [Run.ok.injEq] at h
  exact ⟨h.symm, h0⟩

theorem reconnectLoop_in_range (J : Json) (as : List Attempt) (c c1 : GatewayConnection)
    (h1 : Second ≤ c.reconnectionStartingWaitTime)
    (h2 : c.reconnectionStartingWaitTime ≤ 5 * Minute)
    (h : c.reconnectLoop J as = .ok c1) :
    Second ≤ c1.reconnectionStartingWaitTime ∧ c1.reconnectionStartingWaitTime ≤ 5 * Minute := by
  induction as generalizing c with
  | nil =>
    unfold GatewayConnection.reconnectLoop at h
    split_ifs at h
    · simp only [Run.ok.injEq] at h
      subst h
      exact ⟨h1, h2⟩
    · rw [(loopExit_ok h).1]
      exact ⟨h1, h2⟩
  | cons a as ih =>
    unfold GatewayConnection.reconnectLoop at h
    split_ifs at h
    · cases hi : c.reconnectIter J a with
      | ok c2 =>
        simp only [hi] at h
        obtain ⟨w1, w2⟩ := reconnectWait_in_range c a.nowCheck h1 h2
        obtain ⟨-, -, hb⟩ := reconnectBackoff_in_range _ w1 w2
        have hr := (reconnectIter_ok hi).1
        rw [hb] at hr
        refine ih c2 ?_ ?_ h
        · rw [hr, Second_eq, Minute_eq] at *
          simp only [min_def]
          split_ifs <;> omega
        · rw [hr]
          exact min_le_right _ _
      | fatal c2 => simp [hi] at h
      | panic c2 => simp [hi] at h
    · rw [(loopExit_ok h).1]
      exact ⟨h1, h2⟩

theorem reconnectLoop_doubling (J : Json) (as : List Attempt) (c c1 : GatewayConnection)
    (n : Nat) (ha : c.active = true)
    (hb : c.reconnectionStartingWaitTime = min (2 ^ n * Second) (5 * Minute))
    (hn : noReset c.lastConnection as) (h : c.reconnectLoop J as = .ok c1) :
    c1.reconnectionStartingWaitTime = min (2 ^ (n + as.length) * Second) (5 * Minute) := by
  induction as generalizing c n with
  | nil =>
    simp only [GatewayConnection.reconnectLoop, ha, if_true, Run.ok.injEq] at h
    subst h
    simpa using hb
  | cons a as ih =>
    simp only [GatewayConnection.reconnectLoop, ha, if_true] at h
    cases hi : c.reconnectIter J a with
    | ok c2 =>
      simp only [hi] at h
      obtain ⟨r1, r2, r3⟩ := reconnectIter_ok hi
      obtain ⟨hn1, hn2⟩ := hn
      have hw : (c.reconnectWait a.nowCheck).reconnectionStartingWaitTime =
          c.reconnectionStartingWaitTime := by
        cases hl : c.lastConnection with
        | none => rw [(reconnectWait_wait c a.nowCheck).2.2 hl]
        | some l => exact ((reconnectWait_wait c a.nowCheck).2.1 l hl (hn1 l hl)).1
      obtain ⟨g1, g2⟩ := cap_in_range n
      rw [← hb] at g1 g2
      rw [← hw] at g1 g2
      have hd := (reconnectBackoff_in_range _ g1 g2).2.2
      rw [hd, hw, hb, double_cap] at r1
      have := ih c2 (n + 1) (r2.trans ha) r1 (r3 ▸ hn2) h
      rw [this, List.length_cons, Nat.add_right_comm n 1, Nat.add_assoc n]
    | fatal c2 => simp [hi] at h
    | panic c2 => simp [hi] at h

/-- The backoff of the reconnect loop on attempts that complete: it starts at
1 second; the end of an iteration turns a backoff between 1 second and 5 minutes into
min(2 * backoff, 5 minutes) without overflowing 64 bits; the start of an
iteration resets it to 1 second when at least 60 seconds have passed since the
previous attempt began; an iteration that completes changes it in no other
way; n attempts in a row without a reset, starting from 1 second, leave it at
min(2^n seconds, 5 minutes); and it stays between 1 second and 5 minutes. -/
theorem backoff_doubles_and_caps :
    (∀ url token intents,
      (newConnection url token intents).reconnectionStartingWaitTime = Second) ∧
    (∀ c : GatewayConnection, Second ≤ c.reconnectionStartingWaitTime →
      c.reconnectionStartingWaitTime ≤ 5 * Minute →
      c.reconnectionStartingWaitTime * 2 < 2 ^ 63 ∧
      wrap64 (c.reconnectionStartingWaitTime * 2) = c.reconnectionStartingWaitTime * 2 ∧
      c.reconnectBackoff.reconnectionStartingWaitTime =
        min (2 * c.reconnectionStartingWaitTime) (5 * Minute)) ∧
    (∀ (c : GatewayConnection) (now last : Int), c.lastConnection = some last →
      Minute ≤ sat64 (now - last) →
      (c.reconnectWait now).reconnectionStartingWaitTime = Second) ∧
    (∀ (J : Json) (c c1 : GatewayConnection) (a : Attempt), c.reconnectIter J a = .ok c1 →
      c1.reconnectionStartingWaitTime =
        (c.reconnectWait a.nowCheck).reconnectBackoff.reconnectionStartingWaitTime) ∧
    (∀ (J : Json) (as : List Attempt) (c c1 : GatewayConnection), c.active = true →
      c.reconnectionStartingWaitTime = Second → noReset c.lastConnection as →
      c.reconnectLoop J as = .ok c1 →
      c1.reconnectionStartingWaitTime = min (2 ^ as.length * Second) (5 * Minute)) ∧
    (∀ (J : Json) (as : List Attempt) (c c1 : GatewayConnection),
      Second ≤ c.reconnectionStartingWaitTime →
      c.reconnectionStartingWaitTime ≤ 5 * Minute →
      c.reconnectLoop J as = .ok c1 →
      Second ≤ c1.reconnectionStartingWaitTime ∧
      c1.reconnectionStartingWaitTime ≤ 5 * Minute) := by
  refine ⟨fun _ _ _ => rfl, fun c h1 h2 => reconnectBackoff_in_range c h1 h2,
    fun c now last hl hm => (reconnectWait_wait c now).1 last hl hm,
    fun J c c1 a h => (reconnectIter_ok h).1, ?_,
    fun J as c c1 h1 h2 h => reconnectLoop_in_range J as c c1 h1 h2 h⟩
  intro J as c c1 ha hb hn h
  have := reconnectLoop_doubling J as c c1 0 ha (by rw [hb, Second_eq, Minute_eq]; decide) hn h
  simpa using this

/-- A fresh session whose first two attempts, one second apart, each connect
and then drop: the loop is still running and the backoff is
min(2^2 seconds, 5 minutes) = 4 seconds. -/
theorem backoff_doubles_and_caps_example :
    (freshSession.active = true ∧ freshSession.reconnectionStartingWaitTime = Second ∧
      noReset freshSession.lastConnection [droppedAttempt 0, droppedAttempt Second] ∧
      freshSession.reconnectLoop sampleJson [droppedAttempt 0, droppedAttempt Second] =
        .ok (freshSession.reconnectLoop sampleJson
          [droppedAttempt 0, droppedAttempt Second]).state) ∧
    (freshSession.reconnectLoop sampleJson
        [droppedAttempt 0, droppedAttempt Second]).state.reconnectionStartingWaitTime =
      min (2 ^ [droppedAttempt 0, droppedAttempt Second].length * Second) (5 * Minute) ∧
    (freshSession.reconnectLoop sampleJson
        [droppedAttempt 0, droppedAttempt Second]).state.reconnectionStartingWaitTime =
      4 * Second :=
  ⟨⟨rfl, rfl, ⟨fun _ h => (nomatch h), (fun l h => by cases h; decide), trivial⟩, by decide⟩,
    backoff_doubles_and_caps.2.2.2.2.1 sampleJson [droppedAttempt 0, droppedAttempt Second]
      freshSession _ rfl rfl ⟨fun _ h => (nomatch h), (fun l h => by cases h; decide), trivial⟩
      (by decide),
    by decide⟩

theorem reconnectIter_transport_error (J : Json) (c : GatewayConnection) (a : Attempt)
    (h : a.dial.dialErr = true ∨ a.dial.first = none) :
    (c.reconnectIter J a).isFatal = true ∧
    (c.reconnectIter J a).state.reconnectionStartingWaitTime =
      (c.reconnectWait a.nowCheck).reconnectionStartingWaitTime := by
  cases hd : a.dial.dialErr
  · rcases h with h | h
    · rw [hd] at h
      exact absurd h (by decide)
    · simp [GatewayConnection.reconnectIter, GatewayConnection.connect, hd, h,
        GatewayConnection.error, Run.isFatal, Run.state]
  · simp [GatewayConnection.reconnectIter, GatewayConnection.connect, hd,
      GatewayConnection.error, Run.isFatal, Run.state]

/-- C7 (evaluation): an attempt whose dial fails, and one whose first read
fails, end the process through logger.Fatal instead of doubling the backoff.
On a fresh session the backoff is still 1 second and the next attempt is never
made; after one attempt that connected and dropped (backoff 2 seconds) a
failed dial one second later sleeps 2 seconds and ends the process with the
backoff still 2 seconds. -/
theorem C7_failed_attempt_ends_process :
    freshSession.reconnectionStartingWaitTime = Second ∧
    (freshSession.reconnectLoop sampleJson
      [failedDialAttempt 0, droppedAttempt Second]).isFatal = true ∧
    (freshSession.reconnectLoop sampleJson
      [failedDialAttempt 0, droppedAttempt Second]).state.reconnectionStartingWaitTime =
      Second ∧
    (freshSession.reconnectLoop sampleJson
      [failedReadAttempt 0, droppedAttempt Second]).isFatal = true ∧
    (freshSession.reconnectLoop sampleJson
      [failedReadAttempt 0, droppedAttempt Second]).state.reconnectionStartingWaitTime =
      Second ∧
    (freshSession.reconnectLoop sampleJson
      [droppedAttempt 0, failedDialAttempt Second, droppedAttempt (2 * Second)]).isFatal =
      true ∧
    (freshSession.reconnectLoop sampleJson
      [droppedAttempt 0, failedDialAttempt Second,
        droppedAttempt (2 * Second)]).state.reconnectionStartingWaitTime = 2 * Second ∧
    (freshSession.reconnectLoop sampleJson
      [droppedAttempt 0, failedDialAttempt Second, droppedAttempt (2 * Second)]).state.log =
      (freshSession.reconnectLoop sampleJson [droppedAttempt 0]).state.log ++
        [Ev.sleep (2 * Second)] := by
  decide

/-- C8 (counterexample): on a connection with a 5000 ms interval on which no
acknowledgment is ever recorded, the tick at 5 s sends a heartbeat and the
tick at 10 s, with that heartbeat unacknowledged, sends another one; the
monitor keeps running and nothing is closed. -/
theorem C8_unacknowledged_heartbeat_repeats :
    connectedSession.heartbeatInterval = 5000 ∧ connectedSession.lastHeartbeatAck = none ∧
    ∃ c1 c2, connectedSession.tick sampleJson (5 * Second) okSock = .ok (c1, true) ∧
      c1.lastHeartbeatAck = none ∧
      c1.tick sampleJson (10 * Second) okSock = .ok (c2, true) ∧
      c2.closedChans = [] ∧
      c2.log = connectedSession.log ++
        [Ev.writeJSON { Op := 1, D := "0", S := 0, T := "" },
         Ev.writeJSON { Op := 1, D := "0", S := 0, T := "" }] :=
  ⟨by decide, by decide, _, _, rfl, by decide, rfl, by decide, by decide⟩

/-- C8 (amended): at a tick on a live connection (heartbeat channel open,
socket present, a failed close frame followed by a successful Close), if an
acknowledgment has been recorded on the current connection and more than H
milliseconds have passed since it, the tick closes the connection with the
abnormal closure code and stops the monitor without handing a heartbeat to the
socket; otherwise, in particular when no acknowledgment has been recorded, the
tick hands a Heartbeat frame carrying lastSequence to the socket, and the
monitor keeps running if that write succeeds. -/
theorem C8_tick_checks_last_ack (J : Json) (c : GatewayConnection) (now : Int) (k : Sock) :
    (∀ ack, c.lastHeartbeatAck = some ack →
      wrap64 (c.heartbeatInterval * Millisecond) < sat64 (now - ack) →
      c.heartbeatChannel ∉ c.closedChans → c.conn = true →
      (k.writeErr = true → k.closeErr = false) →
      c.tick J now k = .ok
        ({ c with closedChans := c.heartbeatChannel :: c.closedChans,
                  log := c.log ++ (Ev.writeClose CloseAbnormalClosure ::
                    if k.writeErr = true then [Ev.connClose] else []) }, false)) ∧
    ((c.lastHeartbeatAck = none ∨
        ∃ ack, c.lastHeartbeatAck = some ack ∧
          sat64 (now - ack) ≤ wrap64 (c.heartbeatInterval * Millisecond)) →
      c.tick J now k =
        if k.writeErr = true then
          .fatal { c with log := c.log ++
            [Ev.writeJSON { Op := 1, D := J.marshalInt c.lastSequence, S := 0, T := "" }] }
        else
          .ok ({ c with log := c.log ++
            [Ev.writeJSON { Op := 1, D := J.marshalInt c.lastSequence, S := 0, T := "" }] },
            true)) := by
  constructor
  · intro ack hack hlate hopen hconn hk
    cases hw : k.writeErr
    · simp [GatewayConnection.tick, hack, hlate, GatewayConnection.close, hopen, hconn, hw]
    · simp [GatewayConnection.tick, hack, hlate, GatewayConnection.close, hopen, hconn, hw,
        GatewayConnection.error, hk hw]
  · intro h
    have hbeat : ∀ b : Bool, k.writeErr = b →
        (match c.heartbeat J k with
          | .ok c1 => (Run.ok (c1, true) : Run (GatewayConnection × Bool))
          | .fatal c1 => .fatal c1
          | .panic c1 => .panic c1) =
        if k.writeErr = true then
          .fatal { c with log := c.log ++
            [Ev.writeJSON { Op := 1, D := J.marshalInt c.lastSequence, S := 0, T := "" }] }
        else
          .ok ({ c with log := c.log ++
            [Ev.writeJSON { Op := 1, D := J.marshalInt c.lastSequence, S := 0, T := "" }] },
            true) := by
      intro b hb
      cases b <;>
        simp [GatewayConnection.heartbeat, GatewayConnection.write, GatewayConnection.error,
          GatewayConnection.heartbeatPayload, hb]
    have htick : c.tick J now k =
        (match c.heartbeat J k with
          | .ok c1 => (Run.ok (c1, true) : Run (GatewayConnection × Bool))
          | .fatal c1 => .fatal c1
          | .panic c1 => .panic c1) := by
      rcases h with hnone | ⟨ack, hack, hfresh⟩
      · simp only [GatewayConnection.tick, hnone]
      · simp only [GatewayConnection.tick, hack, gt_iff_lt, not_lt.mpr hfresh, if_false]
    rw [htick]
    exact hbeat _ rfl

/-- C8 (amended) at a session whose last acknowledgment is 6 s old with a
5000 ms interval: the tick closes the connection abnormally and stops. -/
theorem C8_tick_checks_last_ack_witness :
    (ackedSession.lastHeartbeatAck = some 0 ∧
      wrap64 (ackedSession.heartbeatInterval * Millisecond) < sat64 (6 * Second - 0) ∧
      ackedSession.heartbeatChannel ∉ ackedSession.closedChans ∧ ackedSession.conn = true ∧
      (okSock.writeErr = true → okSock.closeErr = false)) ∧
    ackedSession.tick sampleJson (6 * Second) okSock = .ok
      ({ ackedSession with
          closedChans := ackedSession.heartbeatChannel :: ackedSession.closedChans,
          log := ackedSession.log ++ (Ev.writeClose CloseAbnormalClosure ::
            if okSock.writeErr = true then [Ev.connClose] else []) }, false) :=
  ⟨by decide,
    (C8_tick_checks_last_ack sampleJson ackedSession (6 * Second) okSock).1 0
      (by decide) (by decide) (by decide) (by decide) (by decide)⟩

theorem connect_protocol_error (J : Json) (c : GatewayConnection) (d : Dial) (k : Sock)
    (p : GatewayPayload) (hd : d.dialErr = false) (hf : d.first = some p)
    (hp : p.Op ≠ 10 ∨ (J.unmarshalHello p.D).2 = true) :
    ∃ c1, c.connect J d k = .ok (c1, true) := by
  by_cases hop : p.Op = 10
  · rcases hp with h | h
    · exact absurd hop h
    · exact ⟨_, by simp [GatewayConnection.connect, hd, hf, hop, h]; rfl⟩
  · exact ⟨_, by simp [GatewayConnection.connect, hd, hf, hop]; rfl⟩

theorem reconnectIter_protocol_error (J : Json) (c : GatewayConnection) (a : Attempt)
    (p : GatewayPayload) (hd : a.dial.dialErr = false) (hf : a.dial.first = some p)
    (hp : p.Op ≠ 10 ∨ (J.unmarshalHello p.D).2 = true) :
    (c.reconnectIter J a).isFatal = true := by
  obtain ⟨c1, h⟩ := connect_protocol_error J
    { c.reconnectWait a.nowCheck with lastConnection := some a.nowStart } a.dial a.auth p hd hf hp
  simp [GatewayConnection.reconnectIter, h, GatewayConnection.error, Run.isFatal]

/-- C9 (evaluation): a first frame that is not Hello, and a Hello frame with
a malformed payload, each make connect() return an error, on which the
reconnect loop ends the process through logger.Fatal: the backoff is still
1 second and the next attempt is never made. -/
theorem C9_protocol_error_ends_process :
    (∃ c1, freshSession.connect sampleJson wrongFirstAttempt.dial okSock = .ok (c1, true)) ∧
    (freshSession.reconnectLoop sampleJson
      [wrongFirstAttempt, droppedAttempt Second]).isFatal = true ∧
    (freshSession.reconnectLoop sampleJson
      [wrongFirstAttempt, droppedAttempt Second]).state.reconnectionStartingWaitTime = Second ∧
    (freshSession.reconnectLoop sampleJson
      [wrongFirstAttempt, droppedAttempt Second]).state.log = [] ∧
    (∃ c1, freshSession.connect sampleJson malformedHelloAttempt.dial okSock = .ok (c1, true)) ∧
    (freshSession.reconnectLoop sampleJson
      [malformedHelloAttempt, droppedAttempt Second]).isFatal = true :=
  ⟨⟨_, rfl⟩, by decide, by decide, by decide, ⟨_, rfl⟩, by decide⟩

theorem Close_twice (c c1 : GatewayConnection) (k k2 : Sock) (h : c.Close k = .ok c1) :
    (c1.Close k2).isPanic = true := by
  have h1 := (close_ok h).1
  have hin : c1.heartbeatChannel ∈ c1.closedChans := by
    rw [h1]
    simp
  simp [GatewayConnection.Close, GatewayConnection.close, hin, Run.isPanic]

/-- C10 (evaluation): on a connected session a first Close() returns with
active = false and the heartbeat channel closed; a second Close() then panics
on closing the closed channel. The exit of the reconnect loop after the first
Close() does not panic: its deferred close is of the channel made by
ConnectToGateway, not of the one Close() closed. -/
theorem C10_second_Close_panics :
    ∃ c1, connectedSession.Close okSock = .ok c1 ∧ c1.active = false ∧
      c1.heartbeatChannel = 1 ∧ c1.closedChans = [1] ∧
      (c1.Close okSock).isPanic = true ∧
      (c1.reconnectLoop sampleJson []).isPanic = false ∧
      (c1.reconnectLoop sampleJson []).state.closed = true ∧
      (c1.reconnectLoop sampleJson []).state.closedChans = [0, 1] :=
  ⟨_, rfl, by decide, by decide, by decide, by decide, by decide, by decide, by decide⟩

theorem handled_append (xs ys : List Ev) : handled (xs ++ ys) = handled xs ++ handled ys := by
  induction xs with
  | nil => rfl
  | cons e es ih => cases e <;> simp [handled, ih]

theorem listenStep_dispatch (J : Json) (c : GatewayConnection) (f : Recv)
    (hop : f.payload.Op = 0)
    (hd : f.payload.T = "READY" → (J.unmarshalReady f.payload.D).2 = false) :
    c.listenStep J f = .ok
      { c with
        sessionID := if f.payload.T = "READY" then (J.unmarshalReady f.payload.D).1
                     else c.sessionID,
        lastSequence := f.payload.S,
        log := c.log ++ [Ev.handler f.payload.T f.payload.D] } := by
  by_cases hT : f.payload.T = "READY"
  · simp [GatewayConnection.listenStep, hop, hT, hd hT]
  · simp [GatewayConnection.listenStep, hop, hT]

theorem listenStep_heartbeatRequest (J : Json) (c : GatewayConnection) (f : Recv)
    (hop : f.payload.Op = 1) :
    c.listenStep J f =
      if f.sock.writeErr = true then
        .fatal { c with log := c.log ++
          [Ev.writeJSON { Op := 1, D := J.marshalInt c.lastSequence, S := 0, T := "" }] }
      else
        .ok { c with log := c.log ++
          [Ev.writeJSON { Op := 1, D := J.marshalInt c.lastSequence, S := 0, T := "" }] } := by
  cases hw : f.sock.writeErr <;>
    simp [GatewayConnection.listenStep, hop, GatewayConnection.heartbeat,
      GatewayConnection.write, GatewayConnection.error, GatewayConnection.heartbeatPayload, hw]

theorem listen_dispatches (J : Json) (fs : List Recv) (c : GatewayConnection)
    (h : ∀ f ∈ fs, f.payload.Op = 0 ∧
      (f.payload.T = "READY" → (J.unmarshalReady f.payload.D).2 = false)) :
    ∃ c1, c.listen J fs = .ok c1 ∧
      handled c1.log = handled c.log ++ fs.map (fun f => (f.payload.T, f.payload.D)) ∧
      written c1.log = written c.log ∧
      c1.lastSequence = fs.foldl (fun _ f => f.payload.S) c.lastSequence := by
  induction fs generalizing c with
  | nil => exact ⟨c, rfl, by simp, rfl, rfl⟩
  | cons f fs ih =>
    obtain ⟨hop, hd⟩ := h f (List.mem_cons_self f fs)
    have hstep := listenStep_dispatch J c f hop hd
    obtain ⟨c1, h1, h2, h3, h4⟩ := ih
      { c with
        sessionID := if f.payload.T = "READY" then (J.unmarshalReady f.payload.D).1
                     else c.sessionID,
        lastSequence := f.payload.S,
        log := c.log ++ [Ev.handler f.payload.T f.payload.D] }
      (fun g hg => h g (List.mem_cons_of_mem f hg))
    refine ⟨c1, ?_, ?_, ?_, ?_⟩
    · simp only [GatewayConnection.listen, hstep]
      exact h1
    · rw [h2]
      simp [handled_append, handled]
    · rw [h3]
      simp [written_append, written]
    · rw [h4, List.foldl_cons]

/-- The end-to-end flow on a session with lastSequence = 0, for payloads that
decode where the code decodes them: after Hello the session writes Identify;
a READY dispatch carrying session id x stores x; a following Dispatch frame
(t, s, d) leaves lastSequence = s with the handler invoked for READY and then
for (t, d), once each; and a following HeartbeatRequest writes a frame with
opcode 1 whose d is s. -/
theorem session_flow (J : Json) (c : GatewayConnection) (dial : Dial) (k : Sock)
    (hello : GatewayPayload) (rd x t d : String) (s0 s : Int) (r1 r2 r3 : Recv)
    (hseq : c.lastSequence = 0) (hdial : dial.dialErr = false) (hfirst : dial.first = some hello)
    (hop : hello.Op = 10) (herr : (J.unmarshalHello hello.D).2 = false)
    (hpos : 0 < wrap64 ((J.unmarshalHello hello.D).1 * Millisecond))
    (hk : k.writeErr = false)
    (h1 : r1.payload = { Op := 0, D := rd, S := s0, T := "READY" })
    (hx : J.unmarshalReady rd = (x, false))
    (h2 : r2.payload = { Op := 0, D := d, S := s, T := t })
    (hd : t = "READY" → (J.unmarshalReady d).2 = false)
    (h3 : r3.payload.Op = 1) :
    ∃ c0 c1 c2, c.connect J dial k = .ok (c0, false) ∧
      written c0.log = written c.log ++ [c.identifyPayload J] ∧
      c0.listenStep J r1 = .ok c1 ∧ c1.sessionID = x ∧
      c1.listenStep J r2 = .ok c2 ∧ c2.lastSequence = s ∧
      handled c2.log = handled c.log ++ [("READY", rd), (t, d)] ∧
      written c2.log = written c0.log ∧
      c2.listenStep J r3 =
        if r3.sock.writeErr = true then
          .fatal { c2 with log := c2.log ++
            [Ev.writeJSON { Op := 1, D := J.marshalInt s, S := 0, T := "" }] }
        else
          .ok { c2 with log := c2.log ++
            [Ev.writeJSON { Op := 1, D := J.marshalInt s, S := 0, T := "" }] } := by
  have hc := connect_hello J c dial k hello hdial hfirst hop herr hpos
  rw [hk] at hc
  have e1 := listenStep_dispatch J
    { c with
        heartbeatChannel := c.chans, chans := c.chans + 1, conn := true,
        heartbeatInterval := (J.unmarshalHello hello.D).1, lastHeartbeatAck := none,
        log := c.log ++ [Ev.monitor (wrap64 ((J.unmarshalHello hello.D).1 * Millisecond)),
          Ev.writeJSON (if c.lastSequence ≠ 0 then c.resumePayload J
            else c.identifyPayload J)] } r1 (by rw [h1])
    (by rw [h1]; intro _; rw [hx])
  refine ⟨_, _, _, hc, ?_, e1, ?_, listenStep_dispatch J _ r2 (by rw [h2]) (by rw [h2]; exact hd),
    ?_, ?_, ?_, ?_⟩
  · simp [written_append, written, hseq]
  · simp [h1, hx]
  · simp [h2]
  · simp [handled_append, handled, h1, h2]
  · simp [written_append, written]
  · rw [listenStep_heartbeatRequest J _ r3 h3]
    simp [h2]

/-- The end-to-end flow at session id "abc" and Dispatch("MESSAGE_CREATE",
s = 5): Identify after Hello, the handler invoked for READY and for
MESSAGE_CREATE, recorded sequence 5, and Heartbeat with d = 5 on request. -/
theorem session_flow_example :
    freshSession.connect sampleJson helloDial okSock = .ok (connectedSession, false) ∧
    written connectedSession.log = [{ Op := 2, D := "identify token 513", S := 0, T := "" }] ∧
    (connectedSession.listen sampleJson
      [readyFrame, dispatchFrame 5, heartbeatRequest]).isFatal = false ∧
    (connectedSession.listen sampleJson
      [readyFrame, dispatchFrame 5, heartbeatRequest]).state.sessionID = "abc" ∧
    (connectedSession.listen sampleJson
      [readyFrame, dispatchFrame 5, heartbeatRequest]).state.lastSequence = 5 ∧
    handled (connectedSession.listen sampleJson
      [readyFrame, dispatchFrame 5, heartbeatRequest]).state.log =
      [("READY", "session_id:abc"), ("MESSAGE_CREATE", "data")] ∧
    written (connectedSession.listen sampleJson
      [readyFrame, dispatchFrame 5, heartbeatRequest]).state.log =
      [{ Op := 2, D := "identify token 513", S := 0, T := "" },
       { Op := 1, D := "5", S := 0, T := "" }] := by
  decide

/-- C11 (evaluation): a fresh session sends Identify after Hello and stores
session id "abc" from a READY dispatch, invoking the handler for it. A
following Dispatch frame with t = "READY", s = 5 and a payload that does not
decode ends the process through logger.Fatal: the handler is not invoked for
it, lastSequence stays at 1, and the HeartbeatRequest after it is never
answered. -/
theorem C11_undecodable_ready_ends_process :
    freshSession.sessionID = "" ∧ freshSession.lastSequence = 0 ∧
    freshSession.connect sampleJson helloDial okSock = .ok (connectedSession, false) ∧
    written connectedSession.log = [{ Op := 2, D := "identify token 513", S := 0, T := "" }] ∧
    (connectedSession.listen sampleJson
      [readyFrame, malformedReadyFrame 5, heartbeatRequest]).isFatal = true ∧
    (connectedSession.listen sampleJson
      [readyFrame, malformedReadyFrame 5, heartbeatRequest]).state.sessionID = "abc" ∧
    (connectedSession.listen sampleJson
      [readyFrame, malformedReadyFrame 5, heartbeatRequest]).state.lastSequence = 1 ∧
    handled (connectedSession.listen sampleJson
      [readyFrame, malformedReadyFrame 5, heartbeatRequest]).state.log =
      [("READY", "session_id:abc")] ∧
    written (connectedSession.listen sampleJson
      [readyFrame, malformedReadyFrame 5, heartbeatRequest]).state.log =
      [{ Op := 2, D := "identify token 513", S := 0, T := "" }] := by
  decide

end Discordgo
